import Mathlib

/-!
# Run-state core (`src/RunState.cc`) and closure frames (`src/Frame.h`)

A shallow embedding of the packet-driven execution core of the monitor.

* `double` values (timestamps, `pseudo_realtime`) are rationals: the embedded
  code only assigns, compares and truncates them, and a NaN timestamp is outside
  the model.
* `int` values are integers reduced into the 32-bit two's-complement range after
  every arithmetic operation (`wrap32`).  Signed overflow is undefined in the
  source, so the theorems about counters state the range in which no overflow
  occurs.
* The file-level globals of `RunState.cc` form `State`; everything the core
  calls but does not define (timer manager, event manager, session layer,
  reporter, I/O source registry, plugin hook, wall clock) is a parameter
  `Collab W` acting on an external world `W`.  Every such call is also appended
  to `State.trace`, so that "called exactly once" is a statement about the trace.
-/

namespace Zeek

/-! ## Data model -/

/-- The `const Packet*` handed to the core; its contents are not inspected. -/
structure Packet where
  id : Nat
deriving DecidableEq, Repr

/-- Handle of an `iosource::IOSource*` / `iosource::PktSrc*`. -/
abbrev Src := Nat

/-- Handle of an `iosource::PktDumper*`. -/
abbrev Dumper := Nat

/-- Calls leaving the run-state core, in the order they are made. -/
inductive Call
  | Info (msg : String)
  | Error (msg : String)
  | FatalError (msg : String) (path : String)
  | FatalErrorWithCore (int_ct frac_ct int_pst frac_pst dispatched : Int)
  | HookUpdateNetworkTime (t : ℚ)
  | Enqueue (handler : String)
  | Drain
  | NextPacket (t : ℚ) (pkt : Packet)
  | Advance (now : ℚ) (budget : Int)
  | OpenPktSrc (path : String) (is_live : Bool)
  | OpenPktDumper (path : String) (append : Bool)
  | Dump (d : Dumper) (pkt : Packet)
  | ContinueAfterSuspend (ps : Src)
  | Process (src : Src)
  | Statistics (ps : Src)
  | SetVal (id : String) (val : String)
  | init_ip_addr_anonymizers
  | new_NetSessions
  | sessions_Drain
  | sessions_Done
  | setsignal_SIGALRM
  | alarm (secs : Nat)
  | current_time
  | random_number
  | FindReadySources
  | set_processing_status (status : String) (location : String)
  | zeek_terminate_loop (reason : String)
deriving DecidableEq, Repr

/-- Script-level constants and external globals the core only reads
(`NetVar.h`, `BifConst`, `signal_val`). -/
structure NetVar where
  max_timer_expires : Int
  load_sample_freq : Int
  load_sample : Bool
  watchdog_interval : Nat
  exit_only_after_terminate : Bool
deriving Repr

/-- The collaborators of the core, over an external world `W`.  `react` is the
state change a call causes in the collaborators; the other fields are the
values the calls return. -/
structure Collab (W : Type) where
  /-- the effect of a call on the external world -/
  react : Call → W → W
  /-- `timer_mgr->Time()` -/
  Time : W → ℚ
  /-- the count returned by `timer_mgr->Advance(now, budget)` -/
  Advanced : ℚ → Int → W → Int
  /-- `timer_mgr->Size()` -/
  Size : W → Nat
  /-- `util::current_time()` -/
  current_time : W → ℚ
  /-- `util::detail::random_number()` -/
  random_number : W → Nat
  /-- `broker_mgr->Active()` -/
  Active : W → Bool
  /-- `iosource_mgr->Size()` -/
  SrcSize : W → Nat
  /-- `iosource_mgr->FindReadySources(&ready)` -/
  FindReadySources : W → List Src
  /-- `iosource_mgr->GetPktSrc()` -/
  GetPktSrc : W → Option Src
  /-- `ps->IsOpen()` -/
  IsOpen : Src → W → Bool
  /-- `ps->IsLive()` -/
  IsLive : Src → W → Bool
  /-- the pointer returned by `iosource_mgr->OpenPktSrc(path, is_live)` -/
  OpenPktSrc : String → Bool → W → Option Src
  /-- the pointer returned by `iosource_mgr->OpenPktDumper(path, append)` -/
  OpenPktDumper : String → Bool → W → Option Dumper
  /-- `pkt_dumper->IsOpen()` -/
  DumperIsOpen : Dumper → W → Bool
  /-- `pkt_dumper->IsError()` -/
  DumperIsError : Dumper → W → Bool
  /-- whether `global_scope()->Find("trace_output_file")` finds the identifier -/
  FindTraceOutputFile : W → Bool
  /-- whether the event handler `network_time_init` is set -/
  network_time_init : W → Bool
  /-- the packet a source hands to `dispatch_packet` from its `Process()`, if any -/
  Process : Src → W → Option (ℚ × Packet)

/-- The globals of `RunState.cc` together with the external world and the
trace of calls made so far. -/
structure State (W : Type) where
  reading_live : Bool
  reading_traces : Bool
  pseudo_realtime : ℚ
  network_time : ℚ
  processing_start_time : ℚ
  zeek_start_time : ℚ
  zeek_start_network_time : ℚ
  terminating : Bool
  is_parsing : Bool
  current_pkt : Option Packet
  current_dispatched : Int
  current_timestamp : ℚ
  _processing_suspended : Int
  pkt_dumper : Option Dumper
  current_pktsrc : Option Src
  current_iosrc : Option Src
  have_pending_timers : Bool
  last_watchdog_proc_time : ℚ
  /-- the function-local `static uint32_t load_freq` of `dispatch_packet` -/
  load_freq : Nat
  /-- whether `zeek::detail::sample_logger` is allocated -/
  sample_logger : Bool
  /-- whether `sessions` is allocated -/
  sessions : Bool
  signal_val : Int
  nv : NetVar
  world : W
  trace : List Call

/-- How a function of the core ends: it returns (`ok`), or control does not
come back from a call inside it (`stop`: fatal error, failed assertion,
`zeek_terminate_loop`).  Both carry the state reached. -/
inductive Outcome (σ : Type)
  | ok (s : σ)
  | stop (s : σ)

/-- The state in which a function ended. -/
def Outcome.state {σ : Type} : Outcome σ → σ
  | .ok s => s
  | .stop s => s

/-- Whether control was lost inside the function. -/
def Outcome.stopped {σ : Type} : Outcome σ → Bool
  | .ok _ => false
  | .stop _ => true

/-- Sequencing: continue only after a normal return. -/
def Outcome.andThen {σ : Type} (o : Outcome σ) (f : σ → Outcome σ) : Outcome σ :=
  match o with
  | .ok s => f s
  | .stop s => .stop s

/-- Reduction of an integer into the range of `int`, `[-2^31, 2^31)`. -/
def wrap32 (x : Int) : Int := (x + 2147483648) % 4294967296 - 2147483648

/-- Conversion `int(x)` of a `double`: truncation toward zero. -/
def truncInt (x : ℚ) : Int := if 0 ≤ x then ⌊x⌋ else ⌈x⌉

/-- The state before anything ran: the initialisers of the globals. -/
def State.init {W : Type} (nv : NetVar) (w : W) : State W where
  reading_live := false
  reading_traces := false
  pseudo_realtime := 0
  network_time := 0
  processing_start_time := 0
  zeek_start_time := 0
  zeek_start_network_time := 0
  terminating := false
  is_parsing := false
  current_pkt := none
  current_dispatched := 0
  current_timestamp := 0
  _processing_suspended := 0
  pkt_dumper := none
  current_pktsrc := none
  current_iosrc := none
  have_pending_timers := false
  last_watchdog_proc_time := 0
  load_freq := 0
  sample_logger := false
  sessions := false
  signal_val := 0
  nv := nv
  world := w
  trace := []

/-- Make an external call: record it and let the collaborators react. -/
def State.call {W : Type} (s : State W) (c : Collab W) (e : Call) : State W :=
  { s with trace := s.trace ++ [e], world := c.react e s.world }

/-! ## Clock and packet dispatch -/

/-- `update_network_time` (RunState.cc:128). -/
def update_network_time {W : Type} (c : Collab W) (new_network_time : ℚ)
    (s : State W) : State W :=
  ({ s with network_time := new_network_time }).call c
    (.HookUpdateNetworkTime new_network_time)

/-- `expire_timers` (RunState.cc:199).  The segment profiler has no effect on
the state of the core. -/
def expire_timers {W : Type} (c : Collab W) (s : State W) : State W :=
  let budget := wrap32 (s.nv.max_timer_expires - s.current_dispatched)
  let d := c.Advanced s.network_time budget s.world
  let s1 := s.call c (.Advance s.network_time budget)
  { s1 with current_dispatched := wrap32 (s1.current_dispatched + d) }

/-- `dispatch_packet`, lines 210-216: the first-packet block. -/
def dispatch_packet_first {W : Type} (c : Collab W) (t : ℚ) (s : State W) : State W :=
  if s.zeek_start_network_time = 0 then
    let s0 := { s with zeek_start_network_time := t }
    if c.network_time_init s0.world then s0.call c (.Enqueue "network_time_init")
    else s0
  else s

/-- `dispatch_packet`, lines 221-223: the source and packet time being handled. -/
def dispatch_packet_current {W : Type} (t : ℚ) (src_ps : Option Src) (s : State W) :
    State W :=
  { s with current_pktsrc := src_ps, current_iosrc := src_ps,
           processing_start_time := t }

/-- `dispatch_packet`, lines 210-225: first-packet block, clock advance,
current source, timer expiry. -/
def dispatch_packet_enter {W : Type} (c : Collab W) (t : ℚ) (src_ps : Option Src)
    (s : State W) : State W :=
  let s1 := dispatch_packet_first c t s
  let s2 := update_network_time c
    (if c.Time s1.world < t then t else c.Time s1.world) s1
  expire_timers c (dispatch_packet_current t src_ps s2)

/-- `dispatch_packet`, lines 227-245: the load-sampling decision.  Returns the
state and whether a sample profiler `sp` was created.  `uint32_t` values are
naturals below 2^32; where the source divides by a `load_sample_freq` that is 0
as `uint32_t`, the quotient is 0 here. -/
def dispatch_packet_sample {W : Type} (c : Collab W) (s : State W) : State W × Bool :=
  if s.nv.load_sample then
    let s1 :=
      if s.load_freq = 0 then
        { s with load_freq := 4294967295 / (s.nv.load_sample_freq % 4294967296).toNat }
      else s
    let r := c.random_number s1.world
    let s2 := s1.call c .random_number
    if r % 4294967296 < s2.load_freq then
      (({ s2.call c .Drain with sample_logger := true }), true)
    else (s2, false)
  else (s, false)

/-- `dispatch_packet`, lines 247-260: hand the packet to the session layer,
drain the events, tear down the sampler and reset the per-packet state. -/
def dispatch_packet_leave {W : Type} (c : Collab W) (t : ℚ) (pkt : Packet)
    (sp : Bool) (s : State W) : State W :=
  let s1 := s.call c (.NextPacket t pkt)
  let s2 := s1.call c .Drain
  let s3 := if sp then { s2 with sample_logger := false } else s2
  { s3 with processing_start_time := 0, current_dispatched := 0,
            current_iosrc := none, current_pktsrc := none }

/-- `dispatch_packet` (RunState.cc:208). -/
def dispatch_packet {W : Type} (c : Collab W) (t : ℚ) (pkt : Packet)
    (src_ps : Option Src) (s : State W) : State W :=
  let s1 := dispatch_packet_enter c t src_ps s
  let r := dispatch_packet_sample c s1
  dispatch_packet_leave c t pkt r.2 r.1

/-- A sequence of `dispatch_packet` calls, one after another. -/
def dispatch_all {W : Type} (c : Collab W) :
    List (ℚ × Packet × Option Src) → State W → State W
  | [], s => s
  | (t, pkt, src) :: rest, s => dispatch_all c rest (dispatch_packet c t pkt src s)

/-! ## Statistics and shutdown -/

/-- `get_final_stats` (RunState.cc:351).  The text of the message (packet
counts and drop percentage) is not modelled. -/
def get_final_stats {W : Type} (c : Collab W) (s : State W) : State W :=
  match c.GetPktSrc s.world with
  | some ps =>
    if c.IsLive ps s.world then
      (s.call c (.Statistics ps)).call c (.Info "packets received on interface")
    else s
  | none => s

/-- `finish_run` (RunState.cc:364). -/
def finish_run {W : Type} (c : Collab W) (drain_events : Int) (s : State W) : State W :=
  let s1 := s.call c (.set_processing_status "TERMINATING" "finish_run")
  if drain_events ≠ 0 then
    let s2 := if s1.sessions then s1.call c .sessions_Drain else s1
    let s3 := s2.call c .Drain
    if s3.sessions then s3.call c .sessions_Done else s3
  else s1

/-! ## Watchdog -/

/-- `watchdog`, lines 99-104: open the fallback dump file. -/
def watchdog_open_dumper {W : Type} (c : Collab W) (s : State W) : State W :=
  let d := c.OpenPktDumper "watchdog-pkt.pcap" false s.world
  let s1 : State W :=
    { s.call c (.OpenPktDumper "watchdog-pkt.pcap" false) with pkt_dumper := d }
  let bad : Bool :=
    match d with
    | none => true
    | some dd => c.DumperIsError dd s1.world
  if bad then
    { s1.call c (.Error "watchdog: can't open watchdog-pkt.pcap for writing")
      with pkt_dumper := none }
  else s1

/-- `watchdog`, lines 91-110: dump the packet being processed, if there is one. -/
def watchdog_dump {W : Type} (c : Collab W) (s : State W) : State W :=
  match s.current_pkt with
  | some pkt =>
    let s1 := if s.pkt_dumper.isNone then watchdog_open_dumper c s else s
    match s1.pkt_dumper with
    | some dd => s1.call c (.Dump dd pkt)
    | none => s1
  | none => s

/-- `watchdog`, lines 77-118: the abort path.  The times are split into
integer seconds and microseconds for the message. -/
def watchdog_abort {W : Type} (c : Collab W) (s : State W) : State W :=
  let ct := c.current_time s.world
  let s1 := s.call c .current_time
  let int_ct := truncInt ct
  let frac_ct := truncInt ((ct - int_ct) * 1000000)
  let int_pst := truncInt s1.processing_start_time
  let frac_pst := truncInt ((s1.processing_start_time - int_pst) * 1000000)
  let s2 := finish_run c 0 (get_final_stats c (watchdog_dump c s1))
  s2.call c (.FatalErrorWithCore int_ct frac_ct int_pst frac_pst s2.current_dispatched)

/-- `watchdog` (RunState.cc:55), the `SIGALRM` handler.  `FatalErrorWithCore`
does not return. -/
def watchdog {W : Type} (c : Collab W) (s : State W) : Outcome (State W) :=
  if s.processing_start_time ≠ 0 ∧
      s.processing_start_time = s.last_watchdog_proc_time then
    .stop (watchdog_abort c s)
  else
    let s1 := { s with last_watchdog_proc_time := s.processing_start_time }
    .ok (s1.call c (.alarm s1.nv.watchdog_interval))

/-- What the interrupted code has left in the globals the watchdog reads when
a tick arrives. -/
structure Tick where
  processing_start_time : ℚ
  current_pkt : Option Packet
  current_dispatched : Int

/-- The state a tick finds: the interrupted code's globals, and the watchdog's
own static from the previous tick. -/
def Tick.arrive {W : Type} (k : Tick) (s : State W) : State W :=
  { s with processing_start_time := k.processing_start_time,
           current_pkt := k.current_pkt,
           current_dispatched := k.current_dispatched }

/-- A sequence of watchdog ticks; nothing runs after a tick that aborted. -/
def watchdog_ticks {W : Type} (c : Collab W) : List Tick → State W → Outcome (State W)
  | [], s => .ok s
  | k :: rest, s => (watchdog c (k.arrive s)).andThen (watchdog_ticks c rest)

/-! ## Initialisation -/

/-- The mode selection of `init_run`, lines 139-169. -/
def init_run_mode {W : Type} (c : Collab W) (interface pcap_input_file : Option String)
    (s : State W) : Outcome (State W) :=
  match pcap_input_file with
  | some f =>
    let s1 := { s with reading_live := decide (s.pseudo_realtime > 0),
                       reading_traces := true }
    let ps := c.OpenPktSrc f false s1.world
    let s2 := s1.call c (.OpenPktSrc f false)
    match ps with
    | none => .stop s2
    | some p =>
      if c.IsOpen p s2.world then .ok s2
      else .stop (s2.call c (.FatalError "problem with trace file" f))
  | none =>
    match interface with
    | some i =>
      let s1 := { s with reading_live := true, reading_traces := false }
      let ps := c.OpenPktSrc i true s1.world
      let s2 := s1.call c (.OpenPktSrc i true)
      match ps with
      | none => .stop s2
      | some p =>
        if c.IsOpen p s2.world then .ok s2
        else .stop (s2.call c (.FatalError "problem with interface" i))
    | none => .ok { s with reading_traces := false, reading_live := false }

/-- The dump-file part of `init_run`, lines 171-185. -/
def init_run_dumper {W : Type} (c : Collab W) (pcap_output_file : Option String)
    (s : State W) : Outcome (State W) :=
  match pcap_output_file with
  | some writefile =>
    let d := c.OpenPktDumper writefile false s.world
    let s1 := { s.call c (.OpenPktDumper writefile false) with pkt_dumper := d }
    match d with
    | none => .stop s1
    | some dd =>
      if c.DumperIsOpen dd s1.world then
        if c.FindTraceOutputFile s1.world then
          .ok (s1.call c (.SetVal "trace_output_file" writefile))
        else .ok (s1.call c (.Error "trace_output_file not defined in bro.init"))
      else .stop (s1.call c (.FatalError "problem opening dump file" writefile))
  | none => .ok s

/-- `init_run` (RunState.cc:134).  A failed `assert` and `FatalError` do not
return. -/
def init_run {W : Type} (c : Collab W) (interface pcap_input_file pcap_output_file :
    Option String) (do_watchdog : Bool) (s : State W) : Outcome (State W) :=
  ((init_run_mode c interface pcap_input_file s).andThen
    (init_run_dumper c pcap_output_file)).andThen fun s1 =>
      let s2 := s1.call c .init_ip_addr_anonymizers
      let s3 := { s2.call c .new_NetSessions with sessions := true }
      if do_watchdog then
        .ok ((s3.call c .setsignal_SIGALRM).call c (.alarm s3.nv.watchdog_interval))
      else .ok s3

/-! ## Main loop -/

/-- The `for` loop over the ready sources, lines 297-298: note the source and
call its `Process()`. -/
def process_source_call {W : Type} (c : Collab W) (src : Src) (s : State W) : State W :=
  State.call { s with current_iosrc := some src } c (.Process src)

/-- The body of the `for` loop over the ready sources (RunState.cc:296-298).
Modelled from the spec: `PktSrc::Process()` is defined outside `RunState.cc`;
"each source's `Process()` may call back into `dispatch_packet` (packet
sources) or directly enqueue events", so a source that has a packet dispatches
it with itself as the packet source. -/
def process_source {W : Type} (c : Collab W) (src : Src) (s : State W) : State W :=
  match c.Process src s.world with
  | some p => dispatch_packet c p.1 p.2 (some src) (process_source_call c src s)
  | none => process_source_call c src s

/-- The `for` loop over the ready sources (RunState.cc:294). -/
def process_ready {W : Type} (c : Collab W) : List Src → State W → State W
  | [], s => s
  | src :: rest, s => process_ready c rest (process_source c src s)

/-- The idle branch of `run_loop`, lines 309-310. -/
def run_loop_idle {W : Type} (c : Collab W) (s : State W) : State W :=
  let ct := c.current_time s.world
  let s1 := s.call c .current_time
  expire_timers c (update_network_time c ct s1)

/-- `run_loop`, lines 313-317: drain the events and reset the per-iteration
state. -/
def run_loop_reset {W : Type} (c : Collab W) (s : State W) : State W :=
  { s.call c .Drain with processing_start_time := 0, current_dispatched := 0,
                         current_iosrc := none }

/-- `run_loop`, lines 325-328: when not reading traces, note whether timers
are pending. -/
def run_loop_pending {W : Type} (c : Collab W) (s : State W) : State W :=
  if ¬ s.reading_traces then
    { s with have_pending_timers := decide (c.Size s.world > 0) }
  else s

/-- `run_loop`, lines 330-341: turn pseudo-realtime off when no packet source
is open any more. -/
def run_loop_pseudo {W : Type} (c : Collab W) (communication_enabled : Bool)
    (s : State W) : State W :=
  if s.pseudo_realtime ≠ 0 ∧ communication_enabled then
    let have_active_packet_source : Bool :=
      match c.GetPktSrc s.world with
      | some ps => c.IsOpen ps s.world
      | none => false
    if !have_active_packet_source then { s with pseudo_realtime := 0 }
    else s
  else s

/-- The end of a `run_loop` iteration, lines 313-341.  `SIGINT` is 2 and
`SIGTERM` is 15; the loop is left through `zeek_terminate_loop`. -/
def run_loop_end {W : Type} (c : Collab W) (communication_enabled : Bool)
    (s : State W) : Outcome (State W) :=
  let s1 := run_loop_reset c s
  if s1.signal_val = 15 ∨ s1.signal_val = 2 then
    .stop (s1.call c (.zeek_terminate_loop "received termination signal"))
  else
    .ok (run_loop_pseudo c communication_enabled (run_loop_pending c s1))

/-- `run_loop`, lines 292-311: process the ready sources, or use a lull to
catch up on timers. -/
def run_loop_work {W : Type} (c : Collab W) (ready : List Src)
    (communication_enabled : Bool) (s : State W) : State W :=
  if ¬ ready.isEmpty then process_ready c ready s
  else if (s.have_pending_timers ∨ communication_enabled ∨
            s.nv.exit_only_after_terminate) ∧ s.pseudo_realtime = 0 then
    run_loop_idle c s
  else s

/-- `run_loop`, lines 273-289: ask for the ready sources. -/
def run_loop_find {W : Type} (c : Collab W) (s : State W) : State W :=
  { s.call c .FindReadySources with current_iosrc := none }

/-- One iteration of the `while` loop of `run_loop`, lines 273-341. -/
def run_loop_body {W : Type} (c : Collab W) (s : State W) : Outcome (State W) :=
  let ready := c.FindReadySources s.world
  let s1 := run_loop_find c s
  let communication_enabled := c.Active s1.world
  run_loop_end c communication_enabled (run_loop_work c ready communication_enabled s1)

/-- The `while` loop of `run_loop`, bounded by `fuel` iterations. -/
def run_loop_while {W : Type} (c : Collab W) : Nat → State W → Option (Outcome (State W))
  | 0, _ => none
  | fuel + 1, s =>
    if c.SrcSize s.world ≠ 0 ∨ (s.nv.exit_only_after_terminate ∧ ¬ s.terminating) then
      match run_loop_body c s with
      | .ok s1 => run_loop_while c fuel s1
      | .stop s1 => some (.stop s1)
    else some (.ok s)

/-- `run_loop` (RunState.cc:263), bounded by `fuel` iterations. -/
def run_loop {W : Type} (c : Collab W) (fuel : Nat) (s : State W) :
    Option (Outcome (State W)) :=
  (run_loop_while c fuel (s.call c (.set_processing_status "RUNNING" "run_loop"))).map
    fun o => o.andThen fun s1 => .ok (get_final_stats c s1)

/-! ## Suspension counter -/

/-- `suspend_processing` (RunState.cc:418). -/
def suspend_processing {W : Type} (c : Collab W) (s : State W) : State W :=
  let s1 := if s._processing_suspended = 0 then s.call c (.Info "processing suspended")
            else s
  { s1 with _processing_suspended := wrap32 (s1._processing_suspended + 1) }

/-- `continue_processing` (RunState.cc:426). -/
def continue_processing {W : Type} (c : Collab W) (s : State W) : State W :=
  let s1 :=
    if s._processing_suspended = 1 then
      let s0 := s.call c (.Info "processing continued")
      match c.GetPktSrc s0.world with
      | some ps => s0.call c (.ContinueAfterSuspend ps)
      | none => s0
    else s
  { s1 with _processing_suspended := wrap32 (s1._processing_suspended - 1) }

/-- `is_processing_suspended` (RunState.cc:438): the counter converted to `bool`. -/
def is_processing_suspended {W : Type} (s : State W) : Bool :=
  decide (s._processing_suspended ≠ 0)

/-- How often the one-shot event `network_time_init` has been enqueued. -/
def State.enqueued {W : Type} (s : State W) : Nat :=
  s.trace.count (.Enqueue "network_time_init")

/-- The `processing_start_time` seen by the tick before the next one: that of
the last tick so far, and 0.0 before the first tick. -/
def Tick.previous (pre : List Tick) : ℚ :=
  match pre.getLast? with
  | some k => k.processing_start_time
  | none => 0

/-! ## Frames and closure frames (`src/Frame.h`)

`Frame.h` declares the classes; the member functions are defined outside the
header, so the operations are modelled from the specification (§4.6, §4.7) and
the comments of the header.  Frames are values:
a closure frame contains its closure frame and its body frame, which are
distinct objects. -/

/-- An `ID` as far as frames use it: `Name()` and `Offset()`. -/
structure ID where
  name : String
  offset : Nat
deriving DecidableEq, Repr

/-- A value of the scripting language; frames do not look inside. -/
abbrev Val := Int

/-- A slot of a frame, a `Val*`: null or a value. -/
abbrev Slot := Option Val

/-- A `Frame` with its slot array, or a `ClosureFrame` with its `closure`, its
`body` and the names `closure_elements` captured from the closure. -/
inductive Frame
  | base (frame : List Slot)
  | closure (closure : Frame) (body : Frame) (closure_elements : List String)
deriving DecidableEq, Repr

/-- Modelled from the spec: `ClosureFrame::ClosureContains`, whose definition
is missing; "if `id`'s name is in the captured set". -/
def Frame.ClosureContains (closure_elements : List String) (i : ID) : Bool :=
  closure_elements.contains i.name

/-- Modelled from the spec: `Frame::NthElement` on a closure frame, whose slot
array is the one of its body ("all other operations (slot-index access, ...)
act on the body frame"); `none` is the out-of-range access, a fatal
programming error. -/
def Frame.NthElement : Frame → Nat → Option Slot
  | .base slots, n => slots[n]?
  | .closure _ B _, n => B.NthElement n

/-- Modelled from the spec: `Frame::SetElement(int, Val*)`, whose definition is
missing; "replaces slot `n`", on the body frame for a closure frame. -/
def Frame.SetElementN : Frame → Nat → Slot → Option Frame
  | .base slots, n, v => if n < slots.length then some (.base (slots.set n v)) else none
  | .closure K B S, n, v => (B.SetElementN n v).map fun B1 => .closure K B1 S

mutual
/-- Modelled from the spec: `Frame::GetElement` and `ClosureFrame::GetElement`,
whose definitions are missing; a frame "returns slot at `id`'s offset", a
closure frame: "if `id`'s name is in the captured set, delegate to a recursive
search that walks the closure chain (...); otherwise delegate to the body
frame". -/
def Frame.GetElement : Frame → ID → Option Slot
  | .base slots, id => slots[id.offset]?
  | .closure K B S, id =>
    if Frame.ClosureContains S id then Frame.GatherFromClosure K id
    else B.GetElement id
/-- Modelled from the spec: `ClosureFrame::GatherFromClosure`, whose definition
is missing; the "recursive search that walks the closure chain of enclosing
ClosureFrames until a frame directly defines that id". -/
def Frame.GatherFromClosure : Frame → ID → Option Slot
  | .base slots, id => slots[id.offset]?
  | .closure K B S, id =>
    if Frame.ClosureContains S id then Frame.GatherFromClosure K id
    else B.GetElement id
end

mutual
/-- Modelled from the spec: `Frame::SetElement(const ID*, Val*)` and
`ClosureFrame::SetElement`, whose definitions are missing; a frame "sets that
slot", a closure frame is "symmetric — captured ids write through to the
defining closure frame; uncaptured ids write to the body frame". -/
def Frame.SetElement : Frame → ID → Slot → Option Frame
  | .base slots, id, v =>
    if id.offset < slots.length then some (.base (slots.set id.offset v)) else none
  | .closure K B S, id, v =>
    if Frame.ClosureContains S id then
      (Frame.SetInClosure K id v).map fun K1 => .closure K1 B S
    else (B.SetElement id v).map fun B1 => .closure K B1 S
/-- Modelled from the spec: `ClosureFrame::SetInClosure`, whose definition is
missing; it "moves through the closure frames and associates val with id". -/
def Frame.SetInClosure : Frame → ID → Slot → Option Frame
  | .base slots, id, v =>
    if id.offset < slots.length then some (.base (slots.set id.offset v)) else none
  | .closure K B S, id, v =>
    if Frame.ClosureContains S id then
      (Frame.SetInClosure K id v).map fun K1 => .closure K1 B S
    else (B.SetElement id v).map fun B1 => .closure K B1 S
end

/-! ## A concrete world for evaluating the definitions -/

/-- A small external world: a timer manager that keeps the `now` of its last
`Advance` as its clock and has `pending` timers due, a wall clock, and the
answers of the other collaborators. -/
structure Sim where
  tm_time : ℚ
  pending : Nat
  wall : ℚ
  handler : Bool
  pktsrc : Option Src
  src_open : Bool
  broker_active : Bool
deriving DecidableEq, Repr

/-- The number of timers `Sim` fires for a budget: at most the budget, at most
what is pending, none for a budget that is not positive. -/
def Sim.fired (budget : Int) (w : Sim) : Nat := min budget.toNat w.pending

/-- The collaborators over `Sim`. -/
def Sim.collab : Collab Sim where
  react := fun e w =>
    match e with
    | .Advance now budget =>
      { w with tm_time := now, pending := w.pending - Sim.fired budget w }
    | _ => w
  Time := fun w => w.tm_time
  Advanced := fun _ budget w => (Sim.fired budget w : Nat)
  Size := fun w => w.pending
  current_time := fun w => w.wall
  random_number := fun _ => 0
  Active := fun w => w.broker_active
  SrcSize := fun w => if w.pktsrc.isSome then 1 else 0
  FindReadySources := fun _ => []
  GetPktSrc := fun w => w.pktsrc
  IsOpen := fun _ w => w.src_open
  IsLive := fun _ _ => false
  OpenPktSrc := fun _ _ _ => some 0
  OpenPktDumper := fun _ _ _ => some 0
  DumperIsOpen := fun _ _ => true
  DumperIsError := fun _ _ => false
  FindTraceOutputFile := fun _ => true
  network_time_init := fun w => w.handler
  Process := fun _ _ => none

/-- The constants used in the examples. -/
def Sim.nv : NetVar where
  max_timer_expires := 300
  load_sample_freq := 20
  load_sample := false
  watchdog_interval := 10
  exit_only_after_terminate := false

/-- A world at rest: timer clock and wall clock at 0, nothing pending, a
handler for `network_time_init`, no packet source, no broker peer. -/
def Sim.world : Sim where
  tm_time := 0
  pending := 0
  wall := 0
  handler := true
  pktsrc := none
  src_open := false
  broker_active := false

/-- The initial state over the world at rest. -/
def Sim.start : State Sim := State.init Sim.nv Sim.world

/-- The trace replayed in the examples: packets at 1, 1.5 and 1.5 from source 0. -/
def Sim.replay : List (ℚ × Packet × Option Src) :=
  [(1, ⟨0⟩, some 0), (3 / 2, ⟨1⟩, some 0), (3 / 2, ⟨2⟩, some 0)]

/-- The initial state over a world with an open packet source 0, an active
broker peer and the wall clock at 3. -/
def Sim.lull : State Sim :=
  { Sim.start with
    world := { Sim.world with wall := 3, broker_active := true, pktsrc := some 0,
                              src_open := true } }

/-- A state in which `current_pkt` refers to a packet. -/
def Sim.holding : State Sim :=
  { Sim.start with current_pkt := some ⟨1⟩ }

/-- The initial state over a world with 500 timers due. -/
def Sim.busy : State Sim :=
  { Sim.start with world := { Sim.world with pending := 500 } }

/-- The initial state over a world without a handler for `network_time_init`. -/
def Sim.silent : State Sim :=
  { Sim.start with world := { Sim.world with handler := false } }

/-- The initial state over a world with an open packet source 7. -/
def Sim.tapped : State Sim :=
  { Sim.start with world := { Sim.world with pktsrc := some 7, src_open := true } }

/-- A tick that finds the packet stamped 5 in flight. -/
def Sim.tick5 : Tick where
  processing_start_time := 5
  current_pkt := some ⟨1⟩
  current_dispatched := 3

/-- A tick that finds the core idle. -/
def Sim.tick0 : Tick where
  processing_start_time := 0
  current_pkt := none
  current_dispatched := 0

/-- A trace replay paced in pseudo-realtime after its packet source has gone,
with no broker peer. -/
def Sim.paced : State Sim :=
  { Sim.start with pseudo_realtime := 1, reading_traces := true, reading_live := true }

/-- The same with an active broker peer. -/
def Sim.pacedPeer : State Sim :=
  { Sim.paced with world := { Sim.world with broker_active := true } }

/-- The frame of `outer(x)` with `x = 42` in slot 0. -/
def Sim.outer : Frame := .base [some 42]

/-- The closure frame of the function `outer` returns, over a body of two slots. -/
def Sim.middle : Frame := .closure Sim.outer (.base [some 1, none]) ["x"]

/-- The closure frame of the function that one returns, over a body of three
slots. -/
def Sim.inner : Frame := .closure Sim.middle (.base [none, some 2, some 3]) ["x"]

/-! ## Predicates used in the statements -/

/-- The globals that packet dispatch and timer expiry never write. -/
structure Untouched {W : Type} (s s1 : State W) : Prop where
  pseudo_realtime : s1.pseudo_realtime = s.pseudo_realtime
  current_pkt : s1.current_pkt = s.current_pkt
  nv : s1.nv = s.nv
  reading_live : s1.reading_live = s.reading_live
  reading_traces : s1.reading_traces = s.reading_traces
  signal_val : s1.signal_val = s.signal_val

/-- Modelled from the spec: the clock of the timer manager, which is defined
outside `RunState.cc` ("`Advance(now, budget)` fires up to `budget` expired
timers", "even when the external timer manager has run ahead (e.g., idle timer
expiry)"): `Advance(now, _)` leaves `Time()` at `now` or later, and no other
call made by the core moves `Time()` backwards. -/
structure TimerClock {W : Type} (c : Collab W) : Prop where
  advance : ∀ (now : ℚ) (budget : Int) (w : W),
    now ≤ c.Time (c.react (.Advance now budget) w)
  other : ∀ (e : Call) (w : W), (∀ now budget, e ≠ .Advance now budget) →
    c.Time w ≤ c.Time (c.react e w)

/-! ## Globals that packet dispatch leaves alone -/

section Lemmas
variable {W : Type}

theorem Untouched.rfl (s : State W) : Untouched s s := ⟨Eq.refl _, Eq.refl _, Eq.refl _, Eq.refl _, Eq.refl _, Eq.refl _⟩

theorem Untouched.trans {s s1 s2 : State W} (h : Untouched s s1) (h1 : Untouched s1 s2) :
    Untouched s s2 :=
  ⟨h1.pseudo_realtime.trans h.pseudo_realtime, h1.current_pkt.trans h.current_pkt,
   h1.nv.trans h.nv, h1.reading_live.trans h.reading_live,
   h1.reading_traces.trans h.reading_traces, h1.signal_val.trans h.signal_val⟩

theorem call_untouched (c : Collab W) (e : Call) (s : State W) : Untouched s (s.call c e) :=
  ⟨Eq.refl _, Eq.refl _, Eq.refl _, Eq.refl _, Eq.refl _, Eq.refl _⟩

theorem update_network_time_untouched (c : Collab W) (t : ℚ) (s : State W) :
    Untouched s (update_network_time c t s) :=
  ⟨Eq.refl _, Eq.refl _, Eq.refl _, Eq.refl _, Eq.refl _, Eq.refl _⟩

theorem expire_timers_untouched (c : Collab W) (s : State W) :
    Untouched s (expire_timers c s) :=
  ⟨Eq.refl _, Eq.refl _, Eq.refl _, Eq.refl _, Eq.refl _, Eq.refl _⟩

theorem dispatch_packet_first_untouched (c : Collab W) (t : ℚ) (s : State W) :
    Untouched s (dispatch_packet_first c t s) := by
  unfold dispatch_packet_first
  dsimp only
  split_ifs <;> exact ⟨Eq.refl _, Eq.refl _, Eq.refl _, Eq.refl _, Eq.refl _, Eq.refl _⟩

theorem dispatch_packet_current_untouched (t : ℚ) (src : Option Src) (s : State W) :
    Untouched s (dispatch_packet_current t src s) :=
  ⟨Eq.refl _, Eq.refl _, Eq.refl _, Eq.refl _, Eq.refl _, Eq.refl _⟩

theorem dispatch_packet_enter_untouched (c : Collab W) (t : ℚ) (src : Option Src)
    (s : State W) : Untouched s (dispatch_packet_enter c t src s) := by
  exact ((dispatch_packet_first_untouched c t s).trans
    (update_network_time_untouched c _ _)).trans
    (Untouched.trans (dispatch_packet_current_untouched t src _)
      (expire_timers_untouched c _))

theorem dispatch_packet_sample_untouched (c : Collab W) (s : State W) :
    Untouched s (dispatch_packet_sample c s).1 := by
  unfold dispatch_packet_sample
  dsimp only
  split_ifs <;> exact ⟨Eq.refl _, Eq.refl _, Eq.refl _, Eq.refl _, Eq.refl _, Eq.refl _⟩

theorem dispatch_packet_leave_untouched (c : Collab W) (t : ℚ) (pkt : Packet) (sp : Bool)
    (s : State W) : Untouched s (dispatch_packet_leave c t pkt sp s) := by
  unfold dispatch_packet_leave
  cases sp
  · exact ⟨Eq.refl _, Eq.refl _, Eq.refl _, Eq.refl _, Eq.refl _, Eq.refl _⟩
  · exact ⟨Eq.refl _, Eq.refl _, Eq.refl _, Eq.refl _, Eq.refl _, Eq.refl _⟩

theorem dispatch_packet_untouched (c : Collab W) (t : ℚ) (pkt : Packet) (src : Option Src)
    (s : State W) : Untouched s (dispatch_packet c t pkt src s) := by
  unfold dispatch_packet
  exact ((dispatch_packet_enter_untouched c t src s).trans
    (dispatch_packet_sample_untouched c _)).trans (dispatch_packet_leave_untouched c t pkt _ _)

/-! ## The concrete world obeys the assumptions made on collaborators -/

theorem Sim.timerClock : TimerClock Sim.collab where
  advance := fun now _ _ => le_refl now
  other := fun e w h => by
    cases e <;> first | exact le_refl _ | exact absurd rfl (h _ _)

theorem Sim.advanced_le (now : ℚ) (budget : Int) (w : Sim) :
    0 ≤ Sim.collab.Advanced now budget w ∧
      Sim.collab.Advanced now budget w ≤ max budget 0 := by
  show (0 : Int) ≤ ((Sim.fired budget w : Nat) : Int) ∧
    ((Sim.fired budget w : Nat) : Int) ≤ max budget 0
  unfold Sim.fired
  omega

/-! ## The clock under packet dispatch -/

theorem dispatch_packet_first_network_time (c : Collab W) (t : ℚ) (s : State W) :
    (dispatch_packet_first c t s).network_time = s.network_time := by
  unfold dispatch_packet_first
  dsimp only
  split_ifs <;> rfl

theorem dispatch_packet_enter_network_time (c : Collab W) (t : ℚ) (src : Option Src)
    (s : State W) :
    (dispatch_packet_enter c t src s).network_time =
      max t (c.Time (dispatch_packet_first c t s).world) := by
  have h : (dispatch_packet_enter c t src s).network_time =
      if c.Time (dispatch_packet_first c t s).world < t then t
      else c.Time (dispatch_packet_first c t s).world := rfl
  rw [h]
  split_ifs with hlt
  · exact (max_eq_left (le_of_lt hlt)).symm
  · exact (max_eq_right (not_lt.mp hlt)).symm

theorem dispatch_packet_sample_network_time (c : Collab W) (s : State W) :
    (dispatch_packet_sample c s).1.network_time = s.network_time := by
  unfold dispatch_packet_sample
  dsimp only
  split_ifs <;> rfl

theorem dispatch_packet_leave_network_time (c : Collab W) (t : ℚ) (pkt : Packet)
    (sp : Bool) (s : State W) :
    (dispatch_packet_leave c t pkt sp s).network_time = s.network_time := by
  cases sp <;> rfl

theorem dispatch_packet_network_time (c : Collab W) (t : ℚ) (pkt : Packet)
    (src : Option Src) (s : State W) :
    (dispatch_packet c t pkt src s).network_time =
      max t (c.Time (dispatch_packet_first c t s).world) := by
  unfold dispatch_packet
  dsimp only
  rw [dispatch_packet_leave_network_time, dispatch_packet_sample_network_time,
    dispatch_packet_enter_network_time]

theorem run_loop_idle_network_time (c : Collab W) (s : State W) :
    (run_loop_idle c s).network_time = c.current_time s.world := rfl

theorem dispatch_packet_first_time (c : Collab W) (hc : TimerClock c) (t : ℚ)
    (s : State W) : c.Time s.world ≤ c.Time (dispatch_packet_first c t s).world := by
  unfold dispatch_packet_first
  dsimp only
  split_ifs
  · exact hc.other _ _ (by intro now budget h; cases h)
  · exact le_refl _
  · exact le_refl _

theorem dispatch_packet_enter_time (c : Collab W) (hc : TimerClock c) (t : ℚ)
    (src : Option Src) (s : State W) :
    (dispatch_packet_enter c t src s).network_time ≤
      c.Time (dispatch_packet_enter c t src s).world :=
  hc.advance _ _ _

theorem dispatch_packet_sample_time (c : Collab W) (hc : TimerClock c) (s : State W) :
    c.Time s.world ≤ c.Time (dispatch_packet_sample c s).1.world := by
  unfold dispatch_packet_sample
  dsimp only
  have h1 : ∀ w, c.Time w ≤ c.Time (c.react .random_number w) :=
    fun w => hc.other _ _ (by intro now budget h; cases h)
  have h2 : ∀ w, c.Time w ≤ c.Time (c.react .Drain w) :=
    fun w => hc.other _ _ (by intro now budget h; cases h)
  split_ifs
  · exact le_trans (h1 _) (h2 _)
  · exact h1 _
  · exact le_trans (h1 _) (h2 _)
  · exact h1 _
  · exact le_refl _

theorem dispatch_packet_leave_time (c : Collab W) (hc : TimerClock c) (t : ℚ)
    (pkt : Packet) (sp : Bool) (s : State W) :
    c.Time s.world ≤ c.Time (dispatch_packet_leave c t pkt sp s).world := by
  have h1 : c.Time s.world ≤ c.Time (c.react (.NextPacket t pkt) s.world) :=
    hc.other _ _ (by intro now budget h; cases h)
  have h2 : ∀ w, c.Time w ≤ c.Time (c.react .Drain w) :=
    fun w => hc.other _ _ (by intro now budget h; cases h)
  cases sp <;> exact le_trans h1 (h2 _)

/-- After a dispatch the timer manager's clock is not behind `network_time`. -/
theorem dispatch_packet_time (c : Collab W) (hc : TimerClock c) (t : ℚ) (pkt : Packet)
    (src : Option Src) (s : State W) :
    (dispatch_packet c t pkt src s).network_time ≤
      c.Time (dispatch_packet c t pkt src s).world := by
  unfold dispatch_packet
  dsimp only
  rw [dispatch_packet_leave_network_time, dispatch_packet_sample_network_time]
  exact le_trans (dispatch_packet_enter_time c hc t src s)
    (le_trans (dispatch_packet_sample_time c hc _) (dispatch_packet_leave_time c hc t pkt _ _))

/-- A dispatch leaves `network_time` at the timer manager's earlier clock or later. -/
theorem dispatch_packet_after_time (c : Collab W) (hc : TimerClock c) (t : ℚ)
    (pkt : Packet) (src : Option Src) (s : State W) :
    c.Time s.world ≤ (dispatch_packet c t pkt src s).network_time := by
  rw [dispatch_packet_network_time]
  exact le_trans (dispatch_packet_first_time c hc t s) (le_max_right _ _)

theorem dispatch_all_append (c : Collab W) (pre : List (ℚ × Packet × Option Src))
    (t : ℚ) (pkt : Packet) (src : Option Src) (s : State W) :
    dispatch_all c (pre ++ [(t, pkt, src)]) s =
      dispatch_packet c t pkt src (dispatch_all c pre s) := by
  induction pre generalizing s with
  | nil => rfl
  | cons x rest ih =>
    obtain ⟨t1, pkt1, src1⟩ := x
    exact ih _

theorem dispatch_all_time (c : Collab W) (hc : TimerClock c)
    (pre : List (ℚ × Packet × Option Src)) (hpre : pre ≠ []) (s : State W) :
    (dispatch_all c pre s).network_time ≤ c.Time (dispatch_all c pre s).world := by
  rcases List.eq_nil_or_concat pre with h | ⟨front, x, h⟩
  · exact absurd h hpre
  · obtain ⟨t1, pkt1, src1⟩ := x
    rw [h, List.concat_eq_append, dispatch_all_append]
    exact dispatch_packet_time c hc _ _ _ _

/-! ## The per-packet timer budget -/

theorem wrap32_of_range (x : Int) (h0 : -2147483648 ≤ x) (h1 : x < 2147483648) :
    wrap32 x = x := by
  unfold wrap32
  omega

theorem dispatch_packet_first_current_dispatched (c : Collab W) (t : ℚ) (s : State W) :
    (dispatch_packet_first c t s).current_dispatched = s.current_dispatched := by
  unfold dispatch_packet_first
  dsimp only
  split_ifs <;> rfl

theorem dispatch_packet_sample_current_dispatched (c : Collab W) (s : State W) :
    (dispatch_packet_sample c s).1.current_dispatched = s.current_dispatched := by
  unfold dispatch_packet_sample
  dsimp only
  split_ifs <;> rfl

/-- `expire_timers` when the budget and the sum stay in the range of `int`. -/
theorem expire_timers_exact (c : Collab W)
    (hadv : ∀ now budget w, 0 ≤ c.Advanced now budget w ∧
      c.Advanced now budget w ≤ max budget 0)
    (s : State W) (hmax : s.nv.max_timer_expires ≤ 2147483647)
    (h0 : 0 ≤ s.current_dispatched)
    (h1 : s.current_dispatched ≤ s.nv.max_timer_expires) :
    (expire_timers c s).trace = s.trace ++
      [.Advance s.network_time (s.nv.max_timer_expires - s.current_dispatched)] ∧
    (expire_timers c s).current_dispatched = s.current_dispatched +
      c.Advanced s.network_time (s.nv.max_timer_expires - s.current_dispatched) s.world ∧
    s.current_dispatched ≤ (expire_timers c s).current_dispatched ∧
    (expire_timers c s).current_dispatched ≤ s.nv.max_timer_expires := by
  have hb : wrap32 (s.nv.max_timer_expires - s.current_dispatched) =
      s.nv.max_timer_expires - s.current_dispatched :=
    wrap32_of_range _ (by omega) (by omega)
  have htr : (expire_timers c s).trace = s.trace ++
      [.Advance s.network_time (wrap32 (s.nv.max_timer_expires - s.current_dispatched))] :=
    rfl
  have hcd : (expire_timers c s).current_dispatched = wrap32 (s.current_dispatched +
      c.Advanced s.network_time (wrap32 (s.nv.max_timer_expires - s.current_dispatched))
        s.world) := rfl
  rw [hb] at htr hcd
  obtain ⟨hd0, hd1⟩ :=
    hadv s.network_time (s.nv.max_timer_expires - s.current_dispatched) s.world
  have hd2 : c.Advanced s.network_time (s.nv.max_timer_expires - s.current_dispatched)
      s.world ≤ s.nv.max_timer_expires - s.current_dispatched := by
    rw [max_eq_left (by omega)] at hd1
    exact hd1
  rw [wrap32_of_range _ (by omega) (by omega)] at hcd
  refine ⟨htr, hcd, ?_, ?_⟩ <;> rw [hcd] <;> omega

/-! ## The first-packet block -/

theorem enqueued_call (c : Collab W) (e : Call) (s : State W)
    (he : e ≠ .Enqueue "network_time_init") : (s.call c e).enqueued = s.enqueued := by
  show List.count (Call.Enqueue "network_time_init") (s.trace ++ [e]) = _
  rw [List.count_append, List.count_singleton]
  have h : (e == Call.Enqueue "network_time_init") = false := by
    simpa using he
  rw [h]
  rfl

theorem enqueued_call_self (c : Collab W) (s : State W) :
    (s.call c (.Enqueue "network_time_init")).enqueued = s.enqueued + 1 := by
  show List.count (Call.Enqueue "network_time_init")
    (s.trace ++ [Call.Enqueue "network_time_init"]) = _
  rw [List.count_append, List.count_singleton]
  rfl

theorem dispatch_packet_first_start (c : Collab W) (t : ℚ) (s : State W) :
    (dispatch_packet_first c t s).zeek_start_network_time =
      if s.zeek_start_network_time = 0 then t else s.zeek_start_network_time := by
  unfold dispatch_packet_first
  dsimp only
  split_ifs <;> rfl

theorem dispatch_packet_first_enqueued (c : Collab W) (t : ℚ) (s : State W) :
    (dispatch_packet_first c t s).enqueued =
      if s.zeek_start_network_time = 0 ∧ c.network_time_init s.world = true
      then s.enqueued + 1 else s.enqueued := by
  unfold dispatch_packet_first
  dsimp only
  by_cases h0 : s.zeek_start_network_time = 0
  · by_cases hh : c.network_time_init s.world = true
    · rw [if_pos h0, if_pos hh, if_pos ⟨h0, hh⟩]
      exact enqueued_call_self c _
    · rw [if_pos h0, if_neg hh, if_neg (fun h => hh h.2)]
      rfl
  · rw [if_neg h0, if_neg (fun h => h0 h.1)]

theorem dispatch_packet_sample_start (c : Collab W) (s : State W) :
    (dispatch_packet_sample c s).1.zeek_start_network_time = s.zeek_start_network_time := by
  unfold dispatch_packet_sample
  dsimp only
  split_ifs <;> rfl

theorem dispatch_packet_sample_enqueued (c : Collab W) (s : State W) :
    (dispatch_packet_sample c s).1.enqueued = s.enqueued := by
  have h1 : ∀ s1 : State W, (s1.call c .random_number).enqueued = s1.enqueued :=
    fun s1 => enqueued_call c _ s1 (by decide)
  have h2 : ∀ s1 : State W, (s1.call c .Drain).enqueued = s1.enqueued :=
    fun s1 => enqueued_call c _ s1 (by decide)
  unfold dispatch_packet_sample
  dsimp only
  split_ifs
  · exact (h2 _).trans (h1 _)
  · exact h1 _
  · exact (h2 _).trans (h1 _)
  · exact h1 _
  · rfl

theorem dispatch_packet_leave_enqueued (c : Collab W) (t : ℚ) (pkt : Packet) (sp : Bool)
    (s : State W) : (dispatch_packet_leave c t pkt sp s).enqueued = s.enqueued := by
  have h1 : (s.call c (.NextPacket t pkt)).enqueued = s.enqueued :=
    enqueued_call c _ s (by intro h; cases h)
  have h2 : ∀ s1 : State W, (s1.call c .Drain).enqueued = s1.enqueued :=
    fun s1 => enqueued_call c _ s1 (by decide)
  cases sp <;> exact (h2 _).trans h1

theorem dispatch_packet_enter_enqueued (c : Collab W) (t : ℚ) (src : Option Src)
    (s : State W) :
    (dispatch_packet_enter c t src s).enqueued = (dispatch_packet_first c t s).enqueued := by
  have h1 : ∀ (x : ℚ) (s1 : State W), (update_network_time c x s1).enqueued = s1.enqueued :=
    fun x s1 => enqueued_call c _ _ (by intro h; cases h)
  have h2 : ∀ s1 : State W, (expire_timers c s1).enqueued = s1.enqueued :=
    fun s1 => enqueued_call c (.Advance _ _) s1 (by intro h; cases h)
  exact (h2 _).trans (h1 _ _)

theorem dispatch_packet_start (c : Collab W) (t : ℚ) (pkt : Packet) (src : Option Src)
    (s : State W) :
    (dispatch_packet c t pkt src s).zeek_start_network_time =
      if s.zeek_start_network_time = 0 then t else s.zeek_start_network_time := by
  have h1 : ∀ (sp : Bool) (s1 : State W),
      (dispatch_packet_leave c t pkt sp s1).zeek_start_network_time =
        s1.zeek_start_network_time := fun sp s1 => by cases sp <;> rfl
  have h2 : (dispatch_packet_enter c t src s).zeek_start_network_time =
      (dispatch_packet_first c t s).zeek_start_network_time := rfl
  unfold dispatch_packet
  dsimp only
  rw [h1, dispatch_packet_sample_start, h2, dispatch_packet_first_start]

theorem dispatch_packet_enqueued (c : Collab W) (t : ℚ) (pkt : Packet) (src : Option Src)
    (s : State W) :
    (dispatch_packet c t pkt src s).enqueued =
      if s.zeek_start_network_time = 0 ∧ c.network_time_init s.world = true
      then s.enqueued + 1 else s.enqueued := by
  unfold dispatch_packet
  dsimp only
  rw [dispatch_packet_leave_enqueued, dispatch_packet_sample_enqueued,
    dispatch_packet_enter_enqueued, dispatch_packet_first_enqueued]

/-- Once `zeek_start_network_time` is non-zero, further dispatches change
neither it nor the number of `network_time_init` events enqueued. -/
theorem dispatch_all_started (c : Collab W) (rest : List (ℚ × Packet × Option Src))
    (s : State W) (hs : s.zeek_start_network_time ≠ 0) :
    (dispatch_all c rest s).zeek_start_network_time = s.zeek_start_network_time ∧
    (dispatch_all c rest s).enqueued = s.enqueued := by
  induction rest generalizing s with
  | nil => exact ⟨rfl, rfl⟩
  | cons x rest ih =>
    obtain ⟨t, pkt, src⟩ := x
    have h1 : (dispatch_packet c t pkt src s).zeek_start_network_time =
        s.zeek_start_network_time := by
      rw [dispatch_packet_start, if_neg hs]
    have h2 : (dispatch_packet c t pkt src s).enqueued = s.enqueued := by
      rw [dispatch_packet_enqueued, if_neg (fun h => hs h.1)]
    obtain ⟨h3, h4⟩ := ih (dispatch_packet c t pkt src s) (by rw [h1]; exact hs)
    exact ⟨h3.trans h1, h4.trans h2⟩

/-! ## The suspension counter -/

theorem suspend_processing_counter (c : Collab W) (s : State W) :
    (suspend_processing c s)._processing_suspended =
      wrap32 (s._processing_suspended + 1) := by
  unfold suspend_processing
  dsimp only
  split_ifs <;> rfl

theorem continue_processing_counter (c : Collab W) (s : State W) :
    (continue_processing c s)._processing_suspended =
      wrap32 (s._processing_suspended - 1) := by
  unfold continue_processing
  dsimp only
  split_ifs
  · split <;> rfl
  · rfl

theorem continue_processing_quiet (c : Collab W) (s : State W)
    (h : s._processing_suspended ≠ 1) :
    (continue_processing c s).trace = s.trace ∧
    (continue_processing c s).world = s.world := by
  unfold continue_processing
  dsimp only
  rw [if_neg h]
  exact ⟨rfl, rfl⟩

theorem continue_processing_last (c : Collab W) (s : State W)
    (h : s._processing_suspended = 1) :
    (continue_processing c s).trace = s.trace ++ Call.Info "processing continued" ::
      (match c.GetPktSrc (c.react (.Info "processing continued") s.world) with
        | some ps => [Call.ContinueAfterSuspend ps]
        | none => []) := by
  unfold continue_processing
  dsimp only
  rw [if_pos h]
  show (match c.GetPktSrc (c.react (.Info "processing continued") s.world) with
    | some ps => (s.call c (.Info "processing continued")).call c (.ContinueAfterSuspend ps)
    | none => s.call c (.Info "processing continued")).trace = _
  cases c.GetPktSrc (c.react (.Info "processing continued") s.world) with
  | none => rfl
  | some ps => exact List.append_assoc _ _ _

/-- `k` suspensions raise the counter by `k` while it stays in the range of `int`. -/
theorem suspend_processing_iterate (c : Collab W) (k : Nat) (s : State W)
    (h0 : 0 ≤ s._processing_suspended)
    (hmax : s._processing_suspended + k ≤ 2147483647) :
    ((suspend_processing c)^[k] s)._processing_suspended = s._processing_suspended + k := by
  induction k generalizing s with
  | zero => simp
  | succ k ih =>
    have h1 : (suspend_processing c s)._processing_suspended =
        s._processing_suspended + 1 := by
      rw [suspend_processing_counter, wrap32_of_range _ (by omega) (by omega)]
    rw [Function.iterate_succ_apply, ih _ (by omega) (by rw [h1]; push_cast at hmax ⊢; omega),
      h1]
    push_cast
    ring

theorem suspend_processing_quiet (c : Collab W) (s : State W)
    (h : s._processing_suspended ≠ 0) :
    (suspend_processing c s).trace = s.trace ∧
    (suspend_processing c s).world = s.world := by
  unfold suspend_processing
  dsimp only
  rw [if_neg h]
  exact ⟨rfl, rfl⟩

/-- Suspensions of suspended processing call nothing. -/
theorem suspend_processing_iterate_quiet (c : Collab W) (k : Nat) (s : State W)
    (h0 : 0 < s._processing_suspended)
    (hmax : s._processing_suspended + k ≤ 2147483647) :
    ((suspend_processing c)^[k] s).trace = s.trace ∧
    ((suspend_processing c)^[k] s).world = s.world := by
  induction k generalizing s with
  | zero => simp
  | succ k ih =>
    have h1 : (suspend_processing c s)._processing_suspended =
        s._processing_suspended + 1 := by
      rw [suspend_processing_counter, wrap32_of_range _ (by omega) (by omega)]
    obtain ⟨h2, h3⟩ := suspend_processing_quiet c s (by omega)
    obtain ⟨h4, h5⟩ := ih (suspend_processing c s) (by rw [h1]; omega)
      (by rw [h1]; push_cast at hmax ⊢; omega)
    rw [Function.iterate_succ_apply]
    exact ⟨h4.trans h2, h5.trans h3⟩

/-- One or more suspensions of running processing report it once. -/
theorem suspend_processing_iterate_trace (c : Collab W) (k : Nat) (s : State W)
    (h0 : s._processing_suspended = 0) (hmax : k + 1 ≤ 2147483647) :
    ((suspend_processing c)^[k + 1] s).trace =
      s.trace ++ [.Info "processing suspended"] ∧
    ((suspend_processing c)^[k + 1] s).world =
      c.react (.Info "processing suspended") s.world := by
  have h1 : (suspend_processing c s)._processing_suspended = 1 := by
    rw [suspend_processing_counter, h0]
    rfl
  have h2 : (suspend_processing c s).trace = s.trace ++ [.Info "processing suspended"] ∧
      (suspend_processing c s).world = c.react (.Info "processing suspended") s.world := by
    unfold suspend_processing
    dsimp only
    rw [if_pos h0]
    exact ⟨rfl, rfl⟩
  obtain ⟨h3, h4⟩ := suspend_processing_iterate_quiet c k (suspend_processing c s)
    (by rw [h1]; exact Int.one_pos) (by rw [h1]; omega)
  rw [Function.iterate_succ_apply]
  exact ⟨h3.trans h2.1, h4.trans h2.2⟩

/-- Fewer resumptions than the counter holds lower it silently. -/
theorem continue_processing_iterate (c : Collab W) (k : Nat) (s : State W)
    (hk : (k : Int) < s._processing_suspended)
    (hmax : s._processing_suspended ≤ 2147483647) :
    ((continue_processing c)^[k] s)._processing_suspended = s._processing_suspended - k ∧
    ((continue_processing c)^[k] s).trace = s.trace ∧
    ((continue_processing c)^[k] s).world = s.world := by
  induction k generalizing s with
  | zero => simp
  | succ k ih =>
    push_cast at hk
    have h1 : (continue_processing c s)._processing_suspended =
        s._processing_suspended - 1 := by
      rw [continue_processing_counter, wrap32_of_range _ (by omega) (by omega)]
    obtain ⟨h2, h3⟩ := continue_processing_quiet c s (by omega)
    obtain ⟨h4, h5, h6⟩ := ih (continue_processing c s) (by rw [h1]; omega)
      (by rw [h1]; omega)
    rw [Function.iterate_succ_apply]
    refine ⟨?_, h5.trans h2, h6.trans h3⟩
    rw [h4, h1]
    push_cast
    ring

/-! ## Closure frames -/

theorem Frame.gatherFromClosure_eq (F : Frame) (id : ID) :
    Frame.GatherFromClosure F id = F.GetElement id := by
  cases F with
  | base slots => rw [Frame.GatherFromClosure, Frame.GetElement]
  | closure K B S => rw [Frame.GatherFromClosure, Frame.GetElement]

theorem Frame.setInClosure_eq (F : Frame) (id : ID) (v : Slot) :
    Frame.SetInClosure F id v = F.SetElement id v := by
  cases F with
  | base slots => rw [Frame.SetInClosure, Frame.SetElement]
  | closure K B S => rw [Frame.SetInClosure, Frame.SetElement]

/-- What `SetElement(id, v)` has written, `GetElement(id)` reads. -/
theorem Frame.getElement_setElement (F : Frame) (id : ID) (v : Slot) (F1 : Frame)
    (h : F.SetElement id v = some F1) : F1.GetElement id = some v := by
  induction F generalizing F1 with
  | base slots =>
    rw [Frame.SetElement] at h
    split_ifs at h with hlt
    cases h
    rw [Frame.GetElement]
    simp [hlt]
  | closure K B S ihK ihB =>
    rw [Frame.SetElement] at h
    split_ifs at h with hc
    · rw [Frame.setInClosure_eq] at h
      cases hK : K.SetElement id v with
      | none => rw [hK] at h; exact Option.noConfusion h
      | some K1 =>
        rw [hK] at h
        cases h
        rw [Frame.GetElement, if_pos hc, Frame.gatherFromClosure_eq]
        exact ihK K1 hK
    · cases hB : B.SetElement id v with
      | none => rw [hB] at h; exact Option.noConfusion h
      | some B1 =>
        rw [hB] at h
        cases h
        rw [Frame.GetElement, if_neg hc]
        exact ihB B1 hB

/-! ## The watchdog -/

theorem watchdog_ok (c : Collab W) (s : State W)
    (h : ¬ (s.processing_start_time ≠ 0 ∧
      s.processing_start_time = s.last_watchdog_proc_time)) :
    watchdog c s = .ok (State.call
      { s with last_watchdog_proc_time := s.processing_start_time } c
      (.alarm s.nv.watchdog_interval)) := by
  unfold watchdog
  rw [if_neg h]

theorem watchdog_stopped (c : Collab W) (s : State W) :
    (watchdog c s).stopped = true ↔
      (s.processing_start_time ≠ 0 ∧
        s.processing_start_time = s.last_watchdog_proc_time) := by
  unfold watchdog
  split_ifs with h
  · exact ⟨fun _ => h, fun _ => rfl⟩
  · exact ⟨fun h1 => Bool.noConfusion h1, fun h1 => absurd h1 h⟩

theorem get_final_stats_current_dispatched (c : Collab W) (s : State W) :
    (get_final_stats c s).current_dispatched = s.current_dispatched := by
  unfold get_final_stats
  split
  · split_ifs <;> rfl
  · rfl

theorem watchdog_open_dumper_current_dispatched (c : Collab W) (s : State W) :
    (watchdog_open_dumper c s).current_dispatched = s.current_dispatched := by
  unfold watchdog_open_dumper
  dsimp only
  split_ifs <;> rfl

theorem watchdog_dump_current_dispatched (c : Collab W) (s : State W) :
    (watchdog_dump c s).current_dispatched = s.current_dispatched := by
  have h : (if s.pkt_dumper.isNone = true then watchdog_open_dumper c s
      else s).current_dispatched = s.current_dispatched := by
    split_ifs
    · exact watchdog_open_dumper_current_dispatched c s
    · rfl
  unfold watchdog_dump
  split
  · dsimp only
    split <;> exact h
  · rfl

theorem finish_run_zero (c : Collab W) (s : State W) :
    finish_run c 0 s = s.call c (.set_processing_status "TERMINATING" "finish_run") := by
  unfold finish_run
  simp

theorem watchdog_abort_trace (c : Collab W) (s : State W) :
    ∃ front int_ct frac_ct int_pst frac_pst,
      (watchdog_abort c s).trace = front ++
        [.set_processing_status "TERMINATING" "finish_run",
         .FatalErrorWithCore int_ct frac_ct int_pst frac_pst s.current_dispatched] := by
  have hcd : (finish_run c 0 (get_final_stats c
      (watchdog_dump c (s.call c .current_time)))).current_dispatched =
      s.current_dispatched := by
    rw [finish_run_zero]
    exact (get_final_stats_current_dispatched c _).trans
      (watchdog_dump_current_dispatched c _)
  refine ⟨(get_final_stats c (watchdog_dump c (s.call c .current_time))).trace,
    truncInt (c.current_time s.world),
    truncInt ((c.current_time s.world - truncInt (c.current_time s.world)) * 1000000),
    truncInt s.processing_start_time,
    truncInt ((s.processing_start_time - truncInt s.processing_start_time) * 1000000), ?_⟩
  unfold watchdog_abort
  dsimp only
  rw [hcd, finish_run_zero]
  exact List.append_assoc _ _ _

theorem get_final_stats_trace (c : Collab W) (s : State W) :
    ∃ l, (get_final_stats c s).trace = s.trace ++ l := by
  unfold get_final_stats
  split
  · split_ifs
    · exact ⟨_, List.append_assoc _ _ _⟩
    · exact ⟨[], (List.append_nil _).symm⟩
  · exact ⟨[], (List.append_nil _).symm⟩

/-- The abort path dumps the packet being processed to the open dump file. -/
theorem watchdog_abort_dump (c : Collab W) (s : State W) (pkt : Packet) (d : Dumper)
    (hp : s.current_pkt = some pkt) (hd : s.pkt_dumper = some d) :
    Call.Dump d pkt ∈ (watchdog_abort c s).trace := by
  have h1 : watchdog_dump c (s.call c .current_time) =
      (s.call c .current_time).call c (.Dump d pkt) := by
    have hp1 : (s.call c .current_time).current_pkt = some pkt := hp
    have hd1 : (s.call c .current_time).pkt_dumper = some d := hd
    unfold watchdog_dump
    rw [hp1]
    dsimp only
    rw [hd1, if_neg (by simp), hd1]
  obtain ⟨l, h2⟩ := get_final_stats_trace c (watchdog_dump c (s.call c .current_time))
  have h3 : (watchdog_abort c s).trace =
      (get_final_stats c (watchdog_dump c (s.call c .current_time))).trace ++
        [.set_processing_status "TERMINATING" "finish_run",
         .FatalErrorWithCore (truncInt (c.current_time s.world))
           (truncInt ((c.current_time s.world - truncInt (c.current_time s.world)) * 1000000))
           (truncInt s.processing_start_time)
           (truncInt ((s.processing_start_time - truncInt s.processing_start_time) * 1000000))
           (finish_run c 0 (get_final_stats c
             (watchdog_dump c (s.call c .current_time)))).current_dispatched] := by
    unfold watchdog_abort
    dsimp only
    rw [finish_run_zero]
    exact List.append_assoc _ _ _
  rw [h3, h2, h1]
  simp [State.call]

/-- After ticks none of which aborted, the watchdog's static holds the
`processing_start_time` of the last of them. -/
theorem watchdog_ticks_last (c : Collab W) (pre : List Tick) (s s1 : State W)
    (h : watchdog_ticks c pre s = .ok s1) :
    s1.last_watchdog_proc_time =
      match pre.getLast? with
      | some k => k.processing_start_time
      | none => s.last_watchdog_proc_time := by
  induction pre generalizing s with
  | nil =>
    cases h
    rfl
  | cons k rest ih =>
    unfold watchdog_ticks at h
    by_cases hk : (k.arrive s).processing_start_time ≠ 0 ∧
        (k.arrive s).processing_start_time = (k.arrive s).last_watchdog_proc_time
    · have hstop : (watchdog c (k.arrive s)).stopped = true :=
        (watchdog_stopped c _).mpr hk
      cases hw : watchdog c (k.arrive s) with
      | ok s2 => rw [hw] at hstop; exact Bool.noConfusion hstop
      | stop s2 => rw [hw] at h; exact Outcome.noConfusion h
    · rw [watchdog_ok c _ hk] at h
      have h2 := ih _ h
      rw [h2]
      cases rest with
      | nil => rfl
      | cons k2 rest2 =>
        rw [List.getLast?_cons_cons]
        cases hg : (k2 :: rest2).getLast? with
        | none => exact absurd (List.getLast?_eq_none_iff.mp hg) (List.cons_ne_nil _ _)
        | some k3 => rfl

/-! ## Initialisation and the main loop -/

theorem andThen_flags (o : Outcome (State W)) (f : State W → Outcome (State W))
    (hf : ∀ s, (f s).state.reading_live = s.reading_live ∧
      (f s).state.reading_traces = s.reading_traces) :
    (o.andThen f).state.reading_live = o.state.reading_live ∧
    (o.andThen f).state.reading_traces = o.state.reading_traces := by
  cases o with
  | ok s => exact hf s
  | stop s => exact ⟨rfl, rfl⟩

theorem init_run_dumper_flags (c : Collab W) (out : Option String) (s : State W) :
    (init_run_dumper c out s).state.reading_live = s.reading_live ∧
    (init_run_dumper c out s).state.reading_traces = s.reading_traces := by
  unfold init_run_dumper
  split
  · dsimp only
    split
    · exact ⟨rfl, rfl⟩
    · split_ifs <;> exact ⟨rfl, rfl⟩
  · exact ⟨rfl, rfl⟩

theorem init_run_flags (c : Collab W) (interface pcap_input_file pcap_output_file :
    Option String) (do_watchdog : Bool) (s : State W) :
    (init_run c interface pcap_input_file pcap_output_file do_watchdog s).state.reading_live =
      (init_run_mode c interface pcap_input_file s).state.reading_live ∧
    (init_run c interface pcap_input_file pcap_output_file
        do_watchdog s).state.reading_traces =
      (init_run_mode c interface pcap_input_file s).state.reading_traces := by
  unfold init_run
  obtain ⟨h1, h2⟩ := andThen_flags
    ((init_run_mode c interface pcap_input_file s).andThen
      (init_run_dumper c pcap_output_file))
    (fun s1 =>
      let s2 := s1.call c .init_ip_addr_anonymizers
      let s3 := { s2.call c .new_NetSessions with sessions := true }
      if do_watchdog then
        .ok ((s3.call c .setsignal_SIGALRM).call c (.alarm s3.nv.watchdog_interval))
      else .ok s3)
    (fun s1 => by
      dsimp only
      split_ifs <;> exact ⟨rfl, rfl⟩)
  obtain ⟨h3, h4⟩ := andThen_flags (init_run_mode c interface pcap_input_file s)
    (init_run_dumper c pcap_output_file) (init_run_dumper_flags c pcap_output_file)
  exact ⟨h1.trans h3, h2.trans h4⟩

theorem init_run_mode_trace (c : Collab W) (interface : Option String) (f : String)
    (s : State W) :
    (init_run_mode c interface (some f) s).state.reading_traces = true ∧
    (init_run_mode c interface (some f) s).state.reading_live =
      decide (s.pseudo_realtime > 0) := by
  unfold init_run_mode
  dsimp only
  split
  · exact ⟨rfl, rfl⟩
  · split_ifs <;> exact ⟨rfl, rfl⟩

theorem init_run_mode_live (c : Collab W) (i : String) (s : State W) :
    (init_run_mode c (some i) none s).state.reading_live = true ∧
    (init_run_mode c (some i) none s).state.reading_traces = false := by
  unfold init_run_mode
  dsimp only
  split
  · exact ⟨rfl, rfl⟩
  · split_ifs <;> exact ⟨rfl, rfl⟩

theorem process_source_untouched (c : Collab W) (src : Src) (s : State W) :
    Untouched s (process_source c src s) := by
  have h : Untouched s (process_source_call c src s) :=
    ⟨Eq.refl _, Eq.refl _, Eq.refl _, Eq.refl _, Eq.refl _, Eq.refl _⟩
  unfold process_source
  cases c.Process src s.world with
  | none => exact h
  | some p => exact h.trans (dispatch_packet_untouched c _ _ (some src) _)

theorem process_ready_untouched (c : Collab W) (ready : List Src) (s : State W) :
    Untouched s (process_ready c ready s) := by
  induction ready generalizing s with
  | nil => exact Untouched.rfl s
  | cons src rest ih => exact (process_source_untouched c src s).trans (ih _)

theorem run_loop_idle_untouched (c : Collab W) (s : State W) :
    Untouched s (run_loop_idle c s) :=
  ⟨Eq.refl _, Eq.refl _, Eq.refl _, Eq.refl _, Eq.refl _, Eq.refl _⟩

theorem run_loop_pending_same (c : Collab W) (s : State W) :
    (run_loop_pending c s).pseudo_realtime = s.pseudo_realtime ∧
    (run_loop_pending c s).world = s.world := by
  unfold run_loop_pending
  split_ifs <;> exact ⟨rfl, rfl⟩

theorem run_loop_pseudo_world (c : Collab W) (comm : Bool) (s : State W) :
    (run_loop_pseudo c comm s).world = s.world := by
  unfold run_loop_pseudo
  dsimp only
  split_ifs <;> rfl

theorem run_loop_pseudo_value (c : Collab W) (comm : Bool) (s : State W) :
    (run_loop_pseudo c comm s).pseudo_realtime =
      if s.pseudo_realtime ≠ 0 ∧ comm = true ∧
          (∀ ps, c.GetPktSrc s.world = some ps → c.IsOpen ps s.world = false)
      then 0 else s.pseudo_realtime := by
  unfold run_loop_pseudo
  dsimp only
  by_cases h1 : s.pseudo_realtime ≠ 0 ∧ comm = true
  · rw [if_pos h1]
    cases hp : c.GetPktSrc s.world with
    | none =>
      rw [if_pos (by simp), if_pos ⟨h1.1, h1.2, fun ps h => Option.noConfusion h⟩]
    | some ps =>
      cases ho : c.IsOpen ps s.world with
      | false =>
        rw [if_pos (by simp [ho]), if_pos ⟨h1.1, h1.2, fun ps1 h => by
          cases h
          exact ho⟩]
      | true =>
        rw [if_neg (by simp [ho]), if_neg (fun h => by
          have := h.2.2 ps rfl
          rw [ho] at this
          exact Bool.noConfusion this)]
  · rw [if_neg h1, if_neg (fun h => h1 ⟨h.1, h.2.1⟩)]

theorem run_loop_work_untouched (c : Collab W) (ready : List Src) (comm : Bool)
    (s : State W) : Untouched s (run_loop_work c ready comm s) := by
  unfold run_loop_work
  split_ifs
  · exact run_loop_idle_untouched c _
  · exact Untouched.rfl s
  · exact process_ready_untouched c _ _

/-- The state a `run_loop` iteration has reached before its last part. -/
theorem run_loop_body_eq (c : Collab W) (s : State W) :
    ∃ s3 : State W, s3.pseudo_realtime = s.pseudo_realtime ∧
      run_loop_body c s =
        run_loop_end c (c.Active (c.react .FindReadySources s.world)) s3 :=
  ⟨run_loop_work c (c.FindReadySources s.world) (c.Active (run_loop_find c s).world)
      (run_loop_find c s),
    (run_loop_work_untouched c _ _ (run_loop_find c s)).pseudo_realtime, rfl⟩

/-! ## Claims about the clock and packet dispatch -/

/-- C1: for packets submitted one after another to `dispatch_packet` (timestamps
non-decreasing), `network_time` is at least the timestamp of the i-th packet
after the i-th call, and its value after a call is at least its value after
the call before; the timer manager is any one whose clock satisfies
`TimerClock`.  The order of the timestamps is not needed by the proof: the
clamp against the timer manager's clock already gives the second part. -/
theorem dispatch_packet_clock_monotone (c : Collab W) (hc : TimerClock c) (s : State W)
    (pre : List (ℚ × Packet × Option Src)) (t : ℚ) (pkt : Packet) (src : Option Src)
    (_hsorted : List.Sorted (· ≤ ·) ((pre ++ [(t, pkt, src)]).map Prod.fst)) :
    t ≤ (dispatch_all c (pre ++ [(t, pkt, src)]) s).network_time ∧
    (pre ≠ [] → (dispatch_all c pre s).network_time ≤
      (dispatch_all c (pre ++ [(t, pkt, src)]) s).network_time) := by
  rw [dispatch_all_append]
  constructor
  · rw [dispatch_packet_network_time]
    exact le_max_left _ _
  · intro hpre
    exact le_trans (dispatch_all_time c hc pre hpre s)
      (dispatch_packet_after_time c hc _ _ _ _)

/-- C1 at the replay of packets at 1, 1.5, 1.5 and then 3. -/
theorem dispatch_packet_clock_monotone_witness :
    TimerClock Sim.collab ∧
    List.Sorted (· ≤ ·) ((Sim.replay ++ [((3 : ℚ), (⟨3⟩ : Packet), some 0)]).map Prod.fst) ∧
    (3 : ℚ) ≤ (dispatch_all Sim.collab (Sim.replay ++ [(3, ⟨3⟩, some 0)])
      Sim.start).network_time ∧
    (Sim.replay ≠ [] → (dispatch_all Sim.collab Sim.replay Sim.start).network_time ≤
      (dispatch_all Sim.collab (Sim.replay ++ [(3, ⟨3⟩, some 0)])
        Sim.start).network_time) :=
  ⟨Sim.timerClock, by norm_num [List.Sorted, Sim.replay],
    dispatch_packet_clock_monotone Sim.collab Sim.timerClock Sim.start Sim.replay 3 ⟨3⟩
      (some 0) (by norm_num [List.Sorted, Sim.replay])⟩

/-- C6, as the code has it: every return of `dispatch_packet` leaves
`processing_start_time == 0`, `current_dispatched == 0` and
`current_iosrc == current_pktsrc == null`; `current_pkt` is not written by
`dispatch_packet` and has the value it had before the call. -/
theorem dispatch_packet_resets (c : Collab W) (t : ℚ) (pkt : Packet) (src : Option Src)
    (s : State W) :
    (dispatch_packet c t pkt src s).processing_start_time = 0 ∧
    (dispatch_packet c t pkt src s).current_dispatched = 0 ∧
    (dispatch_packet c t pkt src s).current_iosrc = none ∧
    (dispatch_packet c t pkt src s).current_pktsrc = none ∧
    (dispatch_packet c t pkt src s).current_pkt = s.current_pkt :=
  ⟨Eq.refl _, Eq.refl _, Eq.refl _, Eq.refl _,
    (dispatch_packet_untouched c t pkt src s).current_pkt⟩

/-- C6 fails as stated: from a state in which `current_pkt` is set, it is
still set when `dispatch_packet` has returned. -/
theorem dispatch_packet_keeps_current_pkt :
    (dispatch_packet Sim.collab 1 ⟨2⟩ (some 0) Sim.holding).current_pkt = some ⟨1⟩ ∧
    (dispatch_packet Sim.collab 1 ⟨2⟩ (some 0) Sim.holding).current_pkt ≠ none := by
  decide

/-- C7 is broken by the code.  After a packet stamped 5, `network_time` is 5,
and an older packet stamped 2 leaves it at 5: the clamp of `dispatch_packet`
("network_time never goes back").  But an iteration of `run_loop` (a source is
registered, so the loop runs) that then finds no source ready takes the idle
branch, which passes the wall-clock reading to `update_network_time` without
any comparison: with the wall clock at 3 the iteration ends normally with
`network_time` at 3, below 5. -/
theorem network_time_goes_back :
    (dispatch_packet Sim.collab 5 ⟨0⟩ (some 0) Sim.lull).network_time = 5 ∧
    (dispatch_packet Sim.collab 2 ⟨1⟩ (some 0)
      (dispatch_packet Sim.collab 5 ⟨0⟩ (some 0) Sim.lull)).network_time = 5 ∧
    Sim.collab.SrcSize (dispatch_packet Sim.collab 5 ⟨0⟩ (some 0) Sim.lull).world ≠ 0 ∧
    (run_loop_body Sim.collab
      (dispatch_packet Sim.collab 5 ⟨0⟩ (some 0) Sim.lull)).stopped = false ∧
    Call.HookUpdateNetworkTime 3 ∈ (run_loop_body Sim.collab
      (dispatch_packet Sim.collab 5 ⟨0⟩ (some 0) Sim.lull)).state.trace ∧
    (run_loop_body Sim.collab
      (dispatch_packet Sim.collab 5 ⟨0⟩ (some 0) Sim.lull)).state.network_time = 3 ∧
    (run_loop_body Sim.collab
      (dispatch_packet Sim.collab 5 ⟨0⟩ (some 0) Sim.lull)).state.network_time <
      (dispatch_packet Sim.collab 5 ⟨0⟩ (some 0) Sim.lull).network_time := by
  decide

/-- C10: with a timer manager whose `Advance(now, budget)` returns a count
between 0 and `max(budget, 0)`, `expire_timers` from a state with
`0 <= current_dispatched <= max_timer_expires` (an `int`) passes the budget
`max_timer_expires - current_dispatched`, adds the returned count exactly and
leaves `current_dispatched <= max_timer_expires`; and inside a
`dispatch_packet` that starts from `current_dispatched == 0`, the count after
timer expiry is between 0 and `max_timer_expires` and stays there until the
reset at the end. -/
theorem expire_timers_budget (c : Collab W)
    (hadv : ∀ now budget w, 0 ≤ c.Advanced now budget w ∧
      c.Advanced now budget w ≤ max budget 0) :
    (∀ s : State W, s.nv.max_timer_expires ≤ 2147483647 → 0 ≤ s.current_dispatched →
      s.current_dispatched ≤ s.nv.max_timer_expires →
      (expire_timers c s).trace = s.trace ++
        [.Advance s.network_time (s.nv.max_timer_expires - s.current_dispatched)] ∧
      (expire_timers c s).current_dispatched = s.current_dispatched +
        c.Advanced s.network_time (s.nv.max_timer_expires - s.current_dispatched)
          s.world ∧
      (expire_timers c s).current_dispatched ≤ s.nv.max_timer_expires) ∧
    (∀ (s : State W) (t : ℚ) (src : Option Src),
      s.nv.max_timer_expires ≤ 2147483647 → 0 ≤ s.nv.max_timer_expires →
      s.current_dispatched = 0 →
      0 ≤ (dispatch_packet_enter c t src s).current_dispatched ∧
      (dispatch_packet_enter c t src s).current_dispatched ≤ s.nv.max_timer_expires ∧
      (dispatch_packet_sample c (dispatch_packet_enter c t src s)).1.current_dispatched =
        (dispatch_packet_enter c t src s).current_dispatched) := by
  constructor
  · intro s hmax h0 h1
    obtain ⟨h2, h3, _, h4⟩ := expire_timers_exact c hadv s hmax h0 h1
    exact ⟨h2, h3, h4⟩
  · intro s t src hmax hpos hcd
    have hnv : (dispatch_packet_current t src (update_network_time c
        (if c.Time (dispatch_packet_first c t s).world < t then t
          else c.Time (dispatch_packet_first c t s).world)
        (dispatch_packet_first c t s))).nv = s.nv :=
      (((dispatch_packet_first_untouched c t s).trans
        (update_network_time_untouched c _ _)).trans
        (dispatch_packet_current_untouched t src _)).nv
    have hcd1 : (dispatch_packet_current t src (update_network_time c
        (if c.Time (dispatch_packet_first c t s).world < t then t
          else c.Time (dispatch_packet_first c t s).world)
        (dispatch_packet_first c t s))).current_dispatched = 0 :=
      (dispatch_packet_first_current_dispatched c t s).trans hcd
    obtain ⟨_, _, h3, h4⟩ := expire_timers_exact c hadv _ (by rw [hnv]; exact hmax)
      (by rw [hcd1]) (by rw [hcd1, hnv]; exact hpos)
    rw [hcd1] at h3
    rw [hnv] at h4
    exact ⟨h3, h4, dispatch_packet_sample_current_dispatched c _⟩

/-- C10 on the concrete world with 500 timers due and `max_timer_expires = 300`:
the first dispatch is charged 300 timers, the one after it the remaining 200. -/
theorem expire_timers_budget_witness :
    (∀ now budget w, 0 ≤ Sim.collab.Advanced now budget w ∧
      Sim.collab.Advanced now budget w ≤ max budget 0) ∧
    (dispatch_packet_enter Sim.collab 1 (some 0) Sim.busy).current_dispatched = 300 ∧
    (dispatch_packet_enter Sim.collab 1 (some 0) Sim.busy).current_dispatched ≤ 300 ∧
    (dispatch_packet_enter Sim.collab 2 (some 0)
      (dispatch_packet Sim.collab 1 ⟨0⟩ (some 0) Sim.busy)).current_dispatched ≤ 300 :=
  ⟨Sim.advanced_le, by decide,
    ((expire_timers_budget Sim.collab Sim.advanced_le).2 Sim.busy 1 (some 0)
      (by decide) (by decide) rfl).2.1,
    ((expire_timers_budget Sim.collab Sim.advanced_le).2
      (dispatch_packet Sim.collab 1 ⟨0⟩ (some 0) Sim.busy) 2 (some 0)
      (by decide) (by decide) rfl).2.1⟩

/-- C5, as the code has it: starting with `zeek_start_network_time == 0`, for
a sequence of `dispatch_packet` calls whose first timestamp `t1` is not 0,
`zeek_start_network_time` is `t1` after the first call and after every later
call, and `network_time_init` is enqueued during the first call exactly once
if it has a handler and not at all if it has none; no later call enqueues it. -/
theorem zeek_start_network_time_once (c : Collab W) (s : State W)
    (hs : s.zeek_start_network_time = 0) (t1 : ℚ) (pkt1 : Packet) (src1 : Option Src)
    (ht : t1 ≠ 0) (rest : List (ℚ × Packet × Option Src)) :
    (dispatch_packet c t1 pkt1 src1 s).zeek_start_network_time = t1 ∧
    (dispatch_all c ((t1, pkt1, src1) :: rest) s).zeek_start_network_time = t1 ∧
    (dispatch_packet c t1 pkt1 src1 s).enqueued =
      s.enqueued + (if c.network_time_init s.world = true then 1 else 0) ∧
    (dispatch_all c ((t1, pkt1, src1) :: rest) s).enqueued =
      (dispatch_packet c t1 pkt1 src1 s).enqueued := by
  have h1 : (dispatch_packet c t1 pkt1 src1 s).zeek_start_network_time = t1 := by
    rw [dispatch_packet_start, if_pos hs]
  obtain ⟨h2, h3⟩ := dispatch_all_started c rest (dispatch_packet c t1 pkt1 src1 s)
    (by rw [h1]; exact ht)
  refine ⟨h1, h2.trans h1, ?_, h3⟩
  rw [dispatch_packet_enqueued]
  by_cases hh : c.network_time_init s.world = true
  · rw [if_pos ⟨hs, hh⟩, if_pos hh]
  · rw [if_neg (fun h => hh h.2), if_neg hh]
    rfl

/-- The amended C5 on the replay of packets at 1, 1.5 and 1.5. -/
theorem zeek_start_network_time_once_witness :
    Sim.start.zeek_start_network_time = 0 ∧ (1 : ℚ) ≠ 0 ∧
    (dispatch_all Sim.collab ((1, ⟨0⟩, some 0) :: Sim.replay.tail)
      Sim.start).zeek_start_network_time = 1 ∧
    (dispatch_all Sim.collab ((1, ⟨0⟩, some 0) :: Sim.replay.tail) Sim.start).enqueued =
      (dispatch_packet Sim.collab 1 ⟨0⟩ (some 0) Sim.start).enqueued :=
  ⟨rfl, one_ne_zero,
    (zeek_start_network_time_once Sim.collab Sim.start rfl 1 ⟨0⟩ (some 0) one_ne_zero
      Sim.replay.tail).2.1,
    (zeek_start_network_time_once Sim.collab Sim.start rfl 1 ⟨0⟩ (some 0) one_ne_zero
      Sim.replay.tail).2.2.2⟩

/-- C5 fails as stated: without a handler for `network_time_init` the event is
not enqueued at all; and when the first packet has timestamp 0,
`zeek_start_network_time` changes (from 0 to 5) on the second call and the
event is enqueued twice. -/
theorem zeek_start_network_time_twice :
    (dispatch_packet Sim.collab 1 ⟨0⟩ (some 0) Sim.silent).enqueued = 0 ∧
    (dispatch_packet Sim.collab 0 ⟨0⟩ (some 0) Sim.start).zeek_start_network_time = 0 ∧
    (dispatch_all Sim.collab [(0, ⟨0⟩, some 0), (5, ⟨1⟩, some 0)]
      Sim.start).zeek_start_network_time = 5 ∧
    (dispatch_all Sim.collab [(0, ⟨0⟩, some 0), (5, ⟨1⟩, some 0)] Sim.start).enqueued = 2 := by
  decide

/-- C2: from `_processing_suspended == 0`, `n >= 1` calls of
`suspend_processing` followed by `n` calls of `continue_processing` (`n` within
the range of the `int` counter) end with the counter at 0 and
`is_processing_suspended()` false; `is_processing_suspended()` is true after
each of the suspensions and after each but the last resumption; the
suspensions report "processing suspended" once and nothing else, the first
`n - 1` resumptions call nothing, and the last one reports
"processing continued" once and calls `ContinueAfterSuspend()` once on the
packet source `GetPktSrc()` returns (on none when there is no packet source). -/
theorem suspend_continue_balanced (c : Collab W) (s : State W)
    (hs : s._processing_suspended = 0) (n : Nat) (hn : 1 ≤ n) (hmax : n ≤ 2147483647) :
    ((continue_processing c)^[n] ((suspend_processing c)^[n] s))._processing_suspended = 0 ∧
    is_processing_suspended ((continue_processing c)^[n] ((suspend_processing c)^[n] s)) =
      false ∧
    (∀ k, 1 ≤ k → k ≤ n →
      is_processing_suspended ((suspend_processing c)^[k] s) = true) ∧
    ((suspend_processing c)^[n] s).trace = s.trace ++ [.Info "processing suspended"] ∧
    (∀ k, k < n →
      is_processing_suspended
        ((continue_processing c)^[k] ((suspend_processing c)^[n] s)) = true ∧
      ((continue_processing c)^[k] ((suspend_processing c)^[n] s)).trace =
        ((suspend_processing c)^[n] s).trace) ∧
    ((continue_processing c)^[n] ((suspend_processing c)^[n] s)).trace =
      ((suspend_processing c)^[n] s).trace ++ Call.Info "processing continued" ::
        (match c.GetPktSrc (c.react (.Info "processing continued")
            ((suspend_processing c)^[n] s).world) with
          | some ps => [Call.ContinueAfterSuspend ps]
          | none => []) := by
  have hsus : ∀ k : Nat, k ≤ n →
      ((suspend_processing c)^[k] s)._processing_suspended = k := by
    intro k hk
    rw [suspend_processing_iterate c k s (by omega) (by rw [hs]; omega), hs]
    simp
  have hcon : ∀ k : Nat, k < n →
      ((continue_processing c)^[k] ((suspend_processing c)^[n] s))._processing_suspended =
        (n : Int) - k ∧
      ((continue_processing c)^[k] ((suspend_processing c)^[n] s)).trace =
        ((suspend_processing c)^[n] s).trace ∧
      ((continue_processing c)^[k] ((suspend_processing c)^[n] s)).world =
        ((suspend_processing c)^[n] s).world := by
    intro k hk
    have h := continue_processing_iterate c k ((suspend_processing c)^[n] s)
      (by rw [hsus n (le_refl n)]; omega) (by rw [hsus n (le_refl n)]; omega)
    rw [hsus n (le_refl n)] at h
    exact h
  obtain ⟨m, rfl⟩ : ∃ m, n = m + 1 := ⟨n - 1, by omega⟩
  obtain ⟨h1, h2, h3⟩ := hcon m (by omega)
  have hone : ((continue_processing c)^[m]
      ((suspend_processing c)^[m + 1] s))._processing_suspended = 1 := by
    rw [h1]
    push_cast
    ring
  have hfin : ((continue_processing c)^[m + 1]
      ((suspend_processing c)^[m + 1] s))._processing_suspended = 0 := by
    rw [Function.iterate_succ_apply', continue_processing_counter, hone]
    rfl
  refine ⟨hfin, ?_, ?_, (suspend_processing_iterate_trace c m s hs hmax).1, ?_, ?_⟩
  · unfold is_processing_suspended
    rw [hfin]
    rfl
  · intro k hk1 hk2
    unfold is_processing_suspended
    rw [hsus k hk2]
    simp
    omega
  · intro k hk
    obtain ⟨h4, h5, _⟩ := hcon k hk
    refine ⟨?_, h5⟩
    unfold is_processing_suspended
    rw [h4]
    simp
    omega
  · rw [Function.iterate_succ_apply', continue_processing_last c _ hone, h2, h3]

/-- C2 on the concrete world with packet source 7 and `n = 3`. -/
theorem suspend_continue_balanced_witness :
    Sim.tapped._processing_suspended = 0 ∧ 1 ≤ 3 ∧ 3 ≤ 2147483647 ∧
    ((continue_processing Sim.collab)^[3]
      ((suspend_processing Sim.collab)^[3] Sim.tapped)).trace =
      [.Info "processing suspended", .Info "processing continued",
       .ContinueAfterSuspend 7] :=
  ⟨rfl, by decide, by decide,
    (suspend_continue_balanced Sim.collab Sim.tapped rfl 3 (by decide)
      (by decide)).2.2.2.2.2⟩

/-- C8: for a closure frame `C` over closure `K`, body `B` and captured names
`S`: for an identifier whose name is in `S`, `C.GetElement(id)` is
`K.GetElement(id)` and `C.SetElement(id, v)` is `K.SetElement(id, v)` with `B`
as it was; for an identifier whose name is not in `S`, `C.GetElement(id)` is
`B.GetElement(id)` and `C.SetElement(id, v)` is `B.SetElement(id, v)` with `K`
as it was; and what `SetElement(id, v)` wrote is what `GetElement(id)` reads. -/
theorem closure_frame_routes (K B : Frame) (S : List String) (id : ID) (v : Slot) :
    (id.name ∈ S →
      (Frame.closure K B S).GetElement id = K.GetElement id ∧
      (Frame.closure K B S).SetElement id v =
        (K.SetElement id v).map (fun K1 => Frame.closure K1 B S)) ∧
    (id.name ∉ S →
      (Frame.closure K B S).GetElement id = B.GetElement id ∧
      (Frame.closure K B S).SetElement id v =
        (B.SetElement id v).map (fun B1 => Frame.closure K B1 S)) ∧
    (∀ C1 : Frame, (Frame.closure K B S).SetElement id v = some C1 →
      C1.GetElement id = some v) := by
  refine ⟨fun h => ?_, fun h => ?_, fun C1 h => Frame.getElement_setElement _ id v C1 h⟩
  · have hc : Frame.ClosureContains S id = true := by
      simpa [Frame.ClosureContains] using h
    rw [Frame.GetElement, Frame.SetElement, if_pos hc, if_pos hc,
      Frame.gatherFromClosure_eq, Frame.setInClosure_eq]
    exact ⟨rfl, rfl⟩
  · have hc : ¬ Frame.ClosureContains S id = true := by
      simpa [Frame.ClosureContains] using h
    rw [Frame.GetElement, Frame.SetElement, if_neg hc, if_neg hc]
    exact ⟨rfl, rfl⟩

/-- C8 on the capture chain `outer(x)` / returned function / function returned
by that: `x` is read from and written to the closure, slot 1 of the body is
read from the body. -/
theorem closure_frame_routes_witness :
    "x" ∈ ["x"] ∧ "y" ∉ ["x"] ∧
    Sim.inner.GetElement ⟨"x", 0⟩ = some (some 42) ∧
    Sim.inner.SetElement ⟨"x", 0⟩ (some 7) =
      some (.closure (.closure (.base [some 7]) (.base [some 1, none]) ["x"])
        (.base [none, some 2, some 3]) ["x"]) ∧
    Sim.inner.GetElement ⟨"y", 1⟩ = some (some 2) :=
  ⟨by decide, by decide,
    ((closure_frame_routes Sim.middle (.base [none, some 2, some 3]) ["x"] ⟨"x", 0⟩
      none).1 (by decide)).1.trans (by decide),
    ((closure_frame_routes Sim.middle (.base [none, some 2, some 3]) ["x"] ⟨"x", 0⟩
      (some 7)).1 (by decide)).2.trans (by decide),
    ((closure_frame_routes Sim.middle (.base [none, some 2, some 3]) ["x"] ⟨"y", 1⟩
      none).2.1 (by decide)).1.trans (by decide)⟩

/-- C3: a watchdog tick takes the abort path exactly when
`processing_start_time` is non-zero and equal to `last_watchdog_proc_time`;
the abort path dumps the packet being processed (here: to a dump file that is
open), and ends with `finish_run(0)` and `FatalErrorWithCore` reporting
`current_dispatched`; a tick that does not abort records
`last_watchdog_proc_time := processing_start_time` and re-arms the alarm.
Hence, over any sequence of ticks starting with `last_watchdog_proc_time == 0.0`
of which none has aborted yet, the next tick aborts exactly when its
`processing_start_time` is non-zero and equal to the one of the previous tick
(0.0 before the first tick), and the first tick never aborts. -/
theorem watchdog_aborts_iff (c : Collab W) (s : State W) :
    ((watchdog c s).stopped = true ↔
      (s.processing_start_time ≠ 0 ∧
        s.processing_start_time = s.last_watchdog_proc_time)) ∧
    ((watchdog c s).stopped = true →
      ∃ front int_ct frac_ct int_pst frac_pst,
        (watchdog c s).state.trace = front ++
          [.set_processing_status "TERMINATING" "finish_run",
           .FatalErrorWithCore int_ct frac_ct int_pst frac_pst s.current_dispatched]) ∧
    (∀ (pkt : Packet) (d : Dumper), (watchdog c s).stopped = true →
      s.current_pkt = some pkt → s.pkt_dumper = some d →
      Call.Dump d pkt ∈ (watchdog c s).state.trace) ∧
    ((watchdog c s).stopped = false →
      (watchdog c s).state.last_watchdog_proc_time = s.processing_start_time ∧
      (watchdog c s).state.trace = s.trace ++ [.alarm s.nv.watchdog_interval]) ∧
    (∀ (pre : List Tick) (k : Tick) (s1 : State W), s.last_watchdog_proc_time = 0 →
      watchdog_ticks c pre s = .ok s1 →
      s1.last_watchdog_proc_time = Tick.previous pre ∧
      ((watchdog c (k.arrive s1)).stopped = true ↔
        (k.processing_start_time ≠ 0 ∧ k.processing_start_time = Tick.previous pre))) ∧
    (∀ k : Tick, s.last_watchdog_proc_time = 0 →
      (watchdog c (k.arrive s)).stopped = false) := by
  refine ⟨watchdog_stopped c s, fun h => ?_, fun pkt d h hp hd => ?_,
    fun h => ?_, fun pre k s1 h0 hpre => ?_, fun k h0 => ?_⟩
  · have hc := (watchdog_stopped c s).mp h
    unfold watchdog
    rw [if_pos hc]
    exact watchdog_abort_trace c s
  · have hc := (watchdog_stopped c s).mp h
    unfold watchdog
    rw [if_pos hc]
    exact watchdog_abort_dump c s pkt d hp hd
  · have hn : ¬ (s.processing_start_time ≠ 0 ∧
        s.processing_start_time = s.last_watchdog_proc_time) := by
      intro hn
      rw [(watchdog_stopped c s).mpr hn] at h
      exact Bool.noConfusion h
    rw [watchdog_ok c s hn]
    exact ⟨rfl, rfl⟩
  · have hlast : s1.last_watchdog_proc_time = Tick.previous pre := by
      rw [watchdog_ticks_last c pre s s1 hpre, h0]
      rfl
    refine ⟨hlast, ?_⟩
    rw [watchdog_stopped]
    show (k.processing_start_time ≠ 0 ∧
      k.processing_start_time = s1.last_watchdog_proc_time) ↔ _
    rw [hlast]
  · cases hw : (watchdog c (k.arrive s)).stopped with
    | false => rfl
    | true =>
      obtain ⟨h1, h2⟩ := (watchdog_stopped c _).mp hw
      exact absurd (h2.trans h0) h1

/-- C3 on the concrete world: the packet stamped 5 is in flight at two
consecutive ticks after an idle one; the second of them aborts. -/
theorem watchdog_aborts_iff_witness :
    ((watchdog Sim.collab (Sim.tick5.arrive Sim.start)).stopped = false) ∧
    (watchdog_ticks Sim.collab [Sim.tick0, Sim.tick5] Sim.start).stopped = false ∧
    ((watchdog Sim.collab (Sim.tick5.arrive
        (watchdog_ticks Sim.collab [Sim.tick0, Sim.tick5] Sim.start).state)).stopped = true ↔
      (Sim.tick5.processing_start_time ≠ 0 ∧
        Sim.tick5.processing_start_time = Tick.previous [Sim.tick0, Sim.tick5])) :=
  ⟨(watchdog_aborts_iff Sim.collab Sim.start).2.2.2.2.2 Sim.tick5 rfl, by decide,
    ((watchdog_aborts_iff Sim.collab Sim.start).2.2.2.2.1 [Sim.tick0, Sim.tick5] Sim.tick5
      (watchdog_ticks Sim.collab [Sim.tick0, Sim.tick5] Sim.start).state rfl rfl).2⟩

/-- C4, as the code has it: `init_run` sets the mode flags from its optional
arguments, `pcap_input` taking precedence: with `pcap_input` given (with or
without `interface`), `reading_traces = true` and
`reading_live = (pseudo_realtime > 0)`; with `interface` given and `pcap_input`
absent, `reading_live = true` and `reading_traces = false`; with both absent,
both are false.  The flags have these values however `init_run` ends. -/
theorem init_run_mode_by_input (c : Collab W) (interface pcap_output_file : Option String)
    (do_watchdog : Bool) (s : State W) :
    (∀ f : String,
      (init_run c interface (some f) pcap_output_file do_watchdog s).state.reading_traces =
        true ∧
      (init_run c interface (some f) pcap_output_file do_watchdog s).state.reading_live =
        decide (s.pseudo_realtime > 0)) ∧
    (∀ i : String,
      (init_run c (some i) none pcap_output_file do_watchdog s).state.reading_live = true ∧
      (init_run c (some i) none pcap_output_file do_watchdog s).state.reading_traces =
        false) ∧
    (init_run c none none pcap_output_file do_watchdog s).state.reading_live = false ∧
    (init_run c none none pcap_output_file do_watchdog s).state.reading_traces = false := by
  refine ⟨fun f => ?_, fun i => ?_, ?_⟩
  · obtain ⟨h1, h2⟩ := init_run_flags c interface (some f) pcap_output_file do_watchdog s
    obtain ⟨h3, h4⟩ := init_run_mode_trace c interface f s
    exact ⟨h2.trans h3, h1.trans h4⟩
  · obtain ⟨h1, h2⟩ := init_run_flags c (some i) none pcap_output_file do_watchdog s
    obtain ⟨h3, h4⟩ := init_run_mode_live c i s
    exact ⟨h1.trans h3, h2.trans h4⟩
  · obtain ⟨h1, h2⟩ := init_run_flags c none none pcap_output_file do_watchdog s
    exact ⟨h1, h2⟩

/-- C4 fails as stated: with both an interface and a trace file given,
`init_run` returns normally, in trace mode (`reading_traces` true,
`reading_live` false). -/
theorem init_run_accepts_both :
    (init_run Sim.collab (some "eth0") (some "trace.pcap") none false Sim.tapped).stopped =
      false ∧
    (init_run Sim.collab (some "eth0") (some "trace.pcap") none false
      Sim.tapped).state.reading_traces = true ∧
    (init_run Sim.collab (some "eth0") (some "trace.pcap") none false
      Sim.tapped).state.reading_live = false := by
  decide

/-- C9, as the code has it: an iteration of `run_loop` that reaches its end
clears `pseudo_realtime` to 0 exactly when it is non-zero, the broker was
active when the iteration began (`communication_enabled`), and no packet
source is open; otherwise the iteration leaves `pseudo_realtime` as it was. -/
theorem run_loop_body_pseudo_realtime (c : Collab W) (s s1 : State W)
    (h : run_loop_body c s = .ok s1) :
    s1.pseudo_realtime =
      if s.pseudo_realtime ≠ 0 ∧ c.Active (c.react .FindReadySources s.world) = true ∧
          (∀ ps, c.GetPktSrc s1.world = some ps → c.IsOpen ps s1.world = false)
      then 0 else s.pseudo_realtime := by
  obtain ⟨s3, h3, hbody⟩ := run_loop_body_eq c s
  have h4 : (run_loop_reset c s3).pseudo_realtime = s.pseudo_realtime := h3
  rw [hbody] at h
  unfold run_loop_end at h
  dsimp only at h
  split_ifs at h
  cases h
  rw [run_loop_pseudo_value, run_loop_pseudo_world, (run_loop_pending_same c _).1,
    (run_loop_pending_same c _).2, h4]

/-- The amended C9 on the concrete world: paced replay, active broker peer, no
packet source left. -/
theorem run_loop_body_pseudo_realtime_witness :
    run_loop_body Sim.collab Sim.pacedPeer =
      .ok (run_loop_body Sim.collab Sim.pacedPeer).state ∧
    (run_loop_body Sim.collab Sim.pacedPeer).state.pseudo_realtime = 0 :=
  ⟨rfl, (run_loop_body_pseudo_realtime Sim.collab Sim.pacedPeer
    (run_loop_body Sim.collab Sim.pacedPeer).state rfl).trans (by decide)⟩

/-- C9 fails as stated: with pseudo-realtime active and no packet source, but
no active broker, the iteration ends with `pseudo_realtime` still 1. -/
theorem run_loop_body_keeps_pseudo_realtime :
    Sim.paced.pseudo_realtime ≠ 0 ∧
    (run_loop_body Sim.collab Sim.paced).stopped = false ∧
    Sim.collab.GetPktSrc (run_loop_body Sim.collab Sim.paced).state.world = none ∧
    (run_loop_body Sim.collab Sim.paced).state.pseudo_realtime = 1 := by
  decide

end Lemmas

end Zeek
